import Mathlib

/-!
# route-monitor-operator: reconcile primitives and the Dynatrace client

A shallow embedding of `pkg/reconcile/common.go` and `pkg/dynatrace/dynatrace.go`.

* Go values that are mutated through a pointer (`*string`, `*NamespacedName`) are
  passed in and returned: a function returns the value the pointee holds after the
  call together with the Go return values.
* A Go `error` is observed through its `Error()` text; `nil` is `none`.
* The HTTP round trip (`http.NewRequest` followed by `httpClient.Do`) is a step
  function on the state of the remote service; JSON decoding is abstracted by what
  `Decode` yields for each target type.
* Declarations of other packages that the two files use (`SloSpec`, `HostedControlPlane`,
  the store's `List`) are parameters; the helpers of `pkg/util/finalizer` and the escaper
  of `html/template` are modelled and say so in their comments.
-/

/-- A Go `error` value, observed through its `Error()` method. -/
structure GoError where
  Error : String
deriving DecidableEq, Repr

namespace customerrors

/-- The sentinel errors of `pkg/util/errors` that `common.go` returns. -/
inductive Sentinel
  | ErrInvalidReferenceUpdate
  | ErrNoHost
  | ErrInvalidSLO
deriving DecidableEq, Repr

end customerrors

namespace types

/-- The `types.NamespacedName` of apimachinery. -/
structure NamespacedName where
  Name : String
  Namespace : String
deriving DecidableEq, Repr

end types

namespace v1alpha1

/-- The `v1alpha1.NamespacedName` of the operator API: a comparable pair of strings. -/
structure NamespacedName where
  Name : String
  Namespace : String
deriving DecidableEq, Repr

/-- The zero value `v1alpha1.NamespacedName{}`. -/
def NamespacedName.zero : NamespacedName := { Name := "", Namespace := "" }

end v1alpha1

namespace reconcileCommon

/-- If an error has already been flagged and still occurs. -/
def areErrorAndErrorStatusFull (errorStatus : String) (err : Option GoError) : Bool :=
  errorStatus != "" && err.isSome

/-- If the error was flagged but stopped firing. -/
def needsErrorStatusToBeFlushed (errorStatus : String) (err : Option GoError) : Bool :=
  errorStatus != "" && err.isNone

/-- If the error was not flagged but has started firing. -/
def needsErrorStatusToBeSet (errorStatus : String) (err : Option GoError) : Bool :=
  errorStatus == "" && err.isSome

/-- `SetErrorStatus`: the first component is `*errorStatus` after the call, the second
is the returned flag. The `switch` tries its cases in order. -/
def SetErrorStatus (errorStatus : String) (err : Option GoError) : String × Bool :=
  if areErrorAndErrorStatusFull errorStatus err then (errorStatus, false)
  else if needsErrorStatusToBeFlushed errorStatus err then ("", true)
  else if needsErrorStatusToBeSet errorStatus err then
    match err with
    | some e => (e.Error, true)
    | none => (errorStatus, false)
  else (errorStatus, false)

/-- `SetResourceReference`: `*reference` after the call, the returned flag and the
returned error. -/
def SetResourceReference (reference : v1alpha1.NamespacedName)
    (targetNamespace : types.NamespacedName) :
    v1alpha1.NamespacedName × Bool × Option customerrors.Sentinel :=
  let desiredRef : v1alpha1.NamespacedName :=
    { Name := targetNamespace.Name, Namespace := targetNamespace.Namespace }
  if reference = v1alpha1.NamespacedName.zero ∨ desiredRef = v1alpha1.NamespacedName.zero then
    (desiredRef, true, none)
  else if reference ≠ desiredRef then
    (reference, false, some customerrors.Sentinel.ErrInvalidReferenceUpdate)
  else (reference, false, none)

/-- `ParseMonitorSLOSpecs`. The type `v1alpha1.SloSpec`, its zero value and its method
`IsValid` are declared outside the embedded files and are taken as parameters. -/
def ParseMonitorSLOSpecs {SloSpec : Type} [DecidableEq SloSpec] (zeroSloSpec : SloSpec)
    (IsValid : SloSpec → Bool × String) (routeURL : String) (sloSpec : SloSpec) :
    String × Option customerrors.Sentinel :=
  if routeURL = "" then ("", some customerrors.Sentinel.ErrNoHost)
  else if sloSpec = zeroSloSpec then ("", none)
  else
    match IsValid sloSpec with
    | (isValid, parsedSlo) =>
      if !isValid then ("", some customerrors.Sentinel.ErrInvalidSLO)
      else (parsedSlo, none)

end reconcileCommon

namespace hypershiftv1beta1

/-- The string type `AWSEndpointAccessType` of the hypershift API. -/
abbrev AWSEndpointAccessType := String

/-- Access type of a cluster whose endpoint is public. -/
def Public : AWSEndpointAccessType := "Public"

/-- Access type of a cluster whose endpoint is public and private. -/
def PublicAndPrivate : AWSEndpointAccessType := "PublicAndPrivate"

/-- Access type of a cluster whose endpoint is private. -/
def Private : AWSEndpointAccessType := "Private"

end hypershiftv1beta1

namespace dynatrace

/-- The HTTP methods the client uses (`http.MethodGet`, `http.MethodPost`,
`http.MethodDelete`). -/
inductive Method
  | GET
  | POST
  | DELETE
deriving DecidableEq, Repr

/-- The struct `DynatraceCreatedMonitor`. -/
structure DynatraceCreatedMonitor where
  EntityId : String
deriving DecidableEq, Repr

/-- One element of `DynatraceLocation.Locations`; `Type_` is the Go field `Type`. -/
structure Location where
  Name : String
  Type_ : String
  CloudPlatform : String
  EntityId : String
  Status : String
deriving DecidableEq, Repr

/-- The struct `DynatraceLocation`. -/
structure DynatraceLocation where
  Locations : List Location
deriving DecidableEq, Repr

/-- One element of `ExistsHttpMonitorInDynatraceResponse.Monitors`. -/
structure Monitor where
  EntityId : String
deriving DecidableEq, Repr

/-- The struct `ExistsHttpMonitorInDynatraceResponse`. -/
structure ExistsHttpMonitorInDynatraceResponse where
  Monitors : List Monitor
deriving DecidableEq, Repr

/-- A response body, abstracted by what `json.NewDecoder(body).Decode` yields for each of
the three target types the client decodes into. -/
structure Body where
  decodeMonitors : Except GoError ExistsHttpMonitorInDynatraceResponse
  decodeLocations : Except GoError DynatraceLocation
  decodeCreatedMonitor : Except GoError DynatraceCreatedMonitor

/-- The part of `http.Response` the client reads. `StatusCode` is a Go `int` that
`net/http` fills with a non-negative number. -/
structure Response where
  StatusCode : Nat
  Body : Body

/-- The request `MakeRequest` builds: method, URL, optional body and the two headers. -/
structure Request where
  Method : Method
  URL : String
  Body : Option String
  Authorization : String
  ContentType : String
deriving DecidableEq, Repr

/-- The remote end as `MakeRequest` sees it: `http.NewRequest` followed by
`httpClient.Do`, a step on the remote state that yields an error or a response. -/
structure HttpClient (σ : Type) where
  Do : σ → Request → σ × Except GoError Response

/-- The struct `DynatraceApiClient` without its `httpClient` field, which is passed
separately as an `HttpClient`. -/
structure DynatraceApiClient where
  baseURL : String
  apiToken : String
deriving DecidableEq, Repr

/-- `MakeRequest`: helper function to make Dynatrace api requests. -/
def MakeRequest {σ : Type} (h : HttpClient σ) (c : DynatraceApiClient) (method : Method)
    (path : String) (renderedJSON : String) (s : σ) : σ × Except GoError Response :=
  h.Do s
    { Method := method
      URL := c.baseURL ++ path
      Body := if renderedJSON ≠ "" then some renderedJSON else none
      Authorization := "Api-Token " ++ c.apiToken
      ContentType := "application/json" }

/-- `strings.Contains(s, substr)`: `substr` occurs as a contiguous run of `s`. -/
def stringsContains (s substr : String) : Bool :=
  decide (substr.data <:+: s.data)

/-- The first loop of `GetLocationEntityIdFromDynatrace` (public locations): returns at
the first location that passes the test. -/
def findPublicLocation (locationName : String) : List Location → Option String
  | [] => none
  | loc :: rest =>
    if loc.Name = locationName ∧ loc.Type_ = "PUBLIC" ∧ loc.CloudPlatform = "AMAZON_EC2"
        ∧ loc.Status = "ENABLED" then some loc.EntityId
    else findPublicLocation locationName rest

/-- The second loop of `GetLocationEntityIdFromDynatrace` (private locations). -/
def findPrivateLocation (locationName : String) : List Location → Option String
  | [] => none
  | loc :: rest =>
    if stringsContains loc.Name locationName ∧ loc.Type_ = "PRIVATE" ∧ loc.Status = "ENABLED"
    then some loc.EntityId
    else findPrivateLocation locationName rest

/-- The text of the error that ends `GetLocationEntityIdFromDynatrace`. -/
def locationNotFound (locationName : String)
    (locationType : hypershiftv1beta1.AWSEndpointAccessType) : GoError :=
  ⟨"location '" ++ locationName ++ "' not found for location type '" ++ locationType ++ "'"⟩

/-- `GetLocationEntityIdFromDynatrace`: the remote state after the call, the returned
entity id and the returned error. -/
def GetLocationEntityIdFromDynatrace {σ : Type} (h : HttpClient σ) (c : DynatraceApiClient)
    (locationName : String) (locationType : hypershiftv1beta1.AWSEndpointAccessType) (s : σ) :
    σ × String × Option GoError :=
  match MakeRequest h c Method.GET "/synthetic/locations" "" s with
  | (s1, Except.error err) => (s1, "", some err)
  | (s1, Except.ok resp) =>
    if resp.StatusCode ≠ 200 then
      (s1, "", some ⟨"failed to fetch locations. Status code: " ++ toString resp.StatusCode⟩)
    else
      match resp.Body.decodeLocations with
      | Except.error err => (s1, "", some err)
      | Except.ok locationResponse =>
        match (if locationType = hypershiftv1beta1.PublicAndPrivate then
            findPublicLocation locationName locationResponse.Locations else none) with
        | some entityId => (s1, entityId, none)
        | none =>
          match (if locationType = hypershiftv1beta1.Private then
              findPrivateLocation locationName locationResponse.Locations else none) with
          | some entityId => (s1, entityId, none)
          | none => (s1, "", some (locationNotFound locationName locationType))

/-- The `for _, monitor := range` loop of `DeleteDynatraceHttpMonitor`. `listStatus` is
`resp.StatusCode`, the status of the list response, which the loop prints when a DELETE
does not answer 204. -/
def deleteEach {σ : Type} (h : HttpClient σ) (c : DynatraceApiClient) (listStatus : Nat) :
    List Monitor → σ → σ × Option GoError
  | [], s => (s, none)
  | monitor :: rest, s =>
    match MakeRequest h c Method.DELETE ("/synthetic/monitors/" ++ monitor.EntityId) "" s with
    | (s1, Except.error err) => (s1, some err)
    | (s1, Except.ok del) =>
      if del.StatusCode ≠ 204 then
        (s1, some ⟨"failed to delete monitor. Status code: " ++ toString listStatus⟩)
      else deleteEach h c listStatus rest s1

/-- `DeleteDynatraceHttpMonitor`: the remote state after the call and the returned
error. -/
def DeleteDynatraceHttpMonitor {σ : Type} (h : HttpClient σ) (c : DynatraceApiClient)
    (clusterId : String) (s : σ) : σ × Option GoError :=
  match MakeRequest h c Method.GET ("/synthetic/monitors/?tag=cluster-id:" ++ clusterId) "" s with
  | (s1, Except.error err) => (s1, some err)
  | (s1, Except.ok resp) =>
    if resp.StatusCode ≠ 200 then
      (s1, some ⟨"failed to fetch monitor in Dynatrace. Status code: " ++ toString resp.StatusCode⟩)
    else
      match resp.Body.decodeMonitors with
      | Except.error err => (s1, some ⟨"error parsing JSON: " ++ err.Error⟩)
      | Except.ok existsHttpMonitorResponse =>
        if existsHttpMonitorResponse.Monitors.length = 0 then (s1, none)
        else deleteEach h c resp.StatusCode existsHttpMonitorResponse.Monitors s1

/-- The loop `for i := 1; i < countMonitors; i++` of `ExistsHttpMonitorInDynatrace`,
by the number of iterations that remain (`countMonitors - i`); the body does not read
`i`. Leaving the loop normally is `return true, nil`. -/
def dedupLoop {σ : Type} (h : HttpClient σ) (c : DynatraceApiClient) (clusterId : String) :
    Nat → σ → σ × Bool × Option GoError
  | 0, s => (s, true, none)
  | remaining + 1, s =>
    match DeleteDynatraceHttpMonitor h c clusterId s with
    | (s1, some err) =>
      (s1, false,
        some ⟨"failed to delete monitors for cluster id " ++ clusterId ++ ": " ++ err.Error⟩)
    | (s1, none) => dedupLoop h c clusterId remaining s1

/-- `ExistsHttpMonitorInDynatrace`: the remote state after the call, the returned flag
and the returned error. -/
def ExistsHttpMonitorInDynatrace {σ : Type} (h : HttpClient σ) (c : DynatraceApiClient)
    (clusterId : String) (s : σ) : σ × Bool × Option GoError :=
  match MakeRequest h c Method.GET ("/synthetic/monitors/?tag=cluster-id:" ++ clusterId) "" s with
  | (s1, Except.error err) => (s1, false, some err)
  | (s1, Except.ok resp) =>
    if resp.StatusCode ≠ 200 then
      (s1, false,
        some ⟨"failed to fetch monitor in Dynatrace. Status code: " ++ toString resp.StatusCode⟩)
    else
      match resp.Body.decodeMonitors with
      | Except.error err => (s1, false, some ⟨"error parsing JSON: " ++ err.Error⟩)
      | Except.ok existsHttpMonitorResponse =>
        let countMonitors := existsHttpMonitorResponse.Monitors.length
        if countMonitors = 1 then (s1, true, none)
        else if countMonitors = 0 then (s1, false, none)
        else if countMonitors > 1 then dedupLoop h c clusterId (countMonitors - 1) s1
        else (s1, false, none)

/-- One round trip: the request sent and what came back. -/
structure Exchange where
  request : Request
  answer : Except GoError Response

/-- An `HttpClient` that also keeps a record of every round trip, oldest first. -/
def recording {σ : Type} (h : HttpClient σ) : HttpClient (σ × List Exchange) where
  Do := fun sl req =>
    match h.Do sl.1 req with
    | (s1, a) => ((s1, sl.2 ++ [⟨req, a⟩]), a)

/-- The round trip came back with a response of status 204 (no content). -/
def answered204 (a : Except GoError Response) : Bool :=
  match a with
  | Except.ok resp => resp.StatusCode == 204
  | Except.error _ => false

/-- The request `GET /synthetic/monitors/?tag=cluster-id:<clusterId>` as it leaves the
client. -/
def listRequest (c : DynatraceApiClient) (clusterId : String) : Request :=
  { Method := Method.GET
    URL := c.baseURL ++ ("/synthetic/monitors/?tag=cluster-id:" ++ clusterId)
    Body := none
    Authorization := "Api-Token " ++ c.apiToken
    ContentType := "application/json" }

/-- The request `DELETE /synthetic/monitors/<entityId>` as it leaves the client. -/
def deleteRequest (c : DynatraceApiClient) (entityId : String) : Request :=
  { Method := Method.DELETE
    URL := c.baseURL ++ ("/synthetic/monitors/" ++ entityId)
    Body := none
    Authorization := "Api-Token " ++ c.apiToken
    ContentType := "application/json" }

/-- `DeleteDynatraceHttpMonitor` called `k` times in a row for one cluster id, stopping at
the first call that returns an error. -/
def deleteTimes {σ : Type} (h : HttpClient σ) (c : DynatraceApiClient) (clusterId : String) :
    Nat → σ → σ × Option GoError
  | 0, s => (s, none)
  | k + 1, s =>
    match DeleteDynatraceHttpMonitor h c clusterId s with
    | (s1, some err) => (s1, some err)
    | (s1, none) => deleteTimes h c clusterId k s1

/-- A monitor held by the remote service: its entity id and its `cluster-id` tag. -/
structure RemoteMonitor where
  entityId : String
  clusterId : String
deriving DecidableEq, Repr

/-- The body of a monitor list. -/
def monitorsBody (ms : List Monitor) : Body :=
  { decodeMonitors := Except.ok ⟨ms⟩
    decodeLocations := Except.ok ⟨[]⟩
    decodeCreatedMonitor := Except.ok ⟨""⟩ }

/-- An empty body: decoding stops at the end of input. -/
def emptyBody : Body :=
  { decodeMonitors := Except.error ⟨"EOF"⟩
    decodeLocations := Except.error ⟨"EOF"⟩
    decodeCreatedMonitor := Except.error ⟨"EOF"⟩ }

/-- The monitors of the remote service tagged with a cluster id, in stored order. -/
def taggedWith (clusterId : String) (ms : List RemoteMonitor) : List RemoteMonitor :=
  ms.filter (fun m => m.clusterId = clusterId)

/-- A model of the remote service that no other actor modifies. Its state is the list of
monitors it holds. A GET answers 200 with the monitors whose list URL is the requested
one and changes nothing; a DELETE of the URL of a held monitor answers 204 and removes
that monitor, of any other URL answers 404; a POST answers 405. -/
def remoteService (baseURL : String) : HttpClient (List RemoteMonitor) where
  Do := fun ms req =>
    match req.Method with
    | Method.GET =>
      (ms, Except.ok ⟨200, monitorsBody
        ((ms.filter (fun m =>
            req.URL = baseURL ++ ("/synthetic/monitors/?tag=cluster-id:" ++ m.clusterId))).map
          (fun m => ⟨m.entityId⟩))⟩)
    | Method.DELETE =>
      if ms.any (fun m => req.URL = baseURL ++ ("/synthetic/monitors/" ++ m.entityId)) then
        (ms.filter (fun m => req.URL ≠ baseURL ++ ("/synthetic/monitors/" ++ m.entityId)),
          Except.ok ⟨204, emptyBody⟩)
      else (ms, Except.ok ⟨404, emptyBody⟩)
    | Method.POST => (ms, Except.ok ⟨405, emptyBody⟩)

/-- The filter of access type `PublicAndPrivate`: the name is the given one, the type is
PUBLIC, the cloud platform is AMAZON_EC2 and the status is ENABLED. -/
def isPublicMatch (name : String) (l : Location) : Prop :=
  l.Name = name ∧ l.Type_ = "PUBLIC" ∧ l.CloudPlatform = "AMAZON_EC2" ∧ l.Status = "ENABLED"

/-- The filter of access type `Private`: the name contains the given one, the type is
PRIVATE and the status is ENABLED. -/
def isPrivateMatch (name : String) (l : Location) : Prop :=
  (∃ pre post : String, l.Name = pre ++ name ++ post) ∧ l.Type_ = "PRIVATE" ∧
    l.Status = "ENABLED"

/-- A remote end that answers every request with status 200 and a body that decodes to
the given location list. -/
def locationService (locs : List Location) : HttpClient Unit where
  Do := fun u _ =>
    (u, Except.ok ⟨200,
      { decodeMonitors := Except.ok ⟨[]⟩
        decodeLocations := Except.ok ⟨locs⟩
        decodeCreatedMonitor := Except.ok ⟨""⟩ }⟩)

end dynatrace

namespace finalizer

/-- Modelled from the spec: the package `pkg/util/finalizer` is not among the embedded
files. The finalizers of a resource are "an unordered set of string keys attached to a
resource"; an object is represented by that set, and `HasFinalizer` is membership. -/
def HasFinalizer (o : Finset String) (finalizerKey : String) : Bool :=
  decide (finalizerKey ∈ o)

/-- Modelled from the spec: `finalizer.Add` of the absent package `pkg/util/finalizer`,
the "idempotent set insert" of a key. -/
def Add (o : Finset String) (finalizerKey : String) : Finset String :=
  insert finalizerKey o

/-- Modelled from the spec: `finalizer.Remove` of the absent package `pkg/util/finalizer`,
the "idempotent set remove" of a key. -/
def Remove (o : Finset String) (finalizerKey : String) : Finset String :=
  o.erase finalizerKey

end finalizer

namespace reconcileCommon

/-- `DeleteFinalizer`: deletes the finalizer on the object if defined. The first component
is the object after the call, the second the returned flag. -/
def DeleteFinalizer (o : Finset String) (finalizerKey : String) : Finset String × Bool :=
  if finalizer.HasFinalizer o finalizerKey then (finalizer.Remove o finalizerKey, true)
  else (o, false)

/-- `SetFinalizer`: attaches the finalizer to the object. The first component is the
object after the call, the second the returned flag. -/
def SetFinalizer (o : Finset String) (finalizerKey : String) : Finset String × Bool :=
  if !finalizer.HasFinalizer o finalizerKey then (finalizer.Add o finalizerKey, true)
  else (o, false)

/-- `GetHCP`. The type `HostedControlPlane`, its zero value and the store call
`u.Client.List(u.Ctx, &hcpList, client.InNamespace(ns))` are declared outside the embedded
files and are taken as parameters: `list ns` is the error of the call or the items it
filled in. -/
def GetHCP {HostedControlPlane : Type} (zeroHCP : HostedControlPlane)
    (list : String → Except GoError (List HostedControlPlane)) (ns : String) :
    HostedControlPlane × Option GoError :=
  match list ns with
  | Except.error err => (zeroHCP, some err)
  | Except.ok items =>
    if items.length ≠ 1 then
      (zeroHCP, some ⟨"invalid number of HostedControlPlanes detected in namespace '" ++ ns ++
        "': expected 1, got " ++ toString items.length⟩)
    else
      match items with
      | first :: _ => (first, none)
      | [] => (zeroHCP, none)

end reconcileCommon

namespace dynatrace

/-- The struct `DynatraceMonitorConfig`. -/
structure DynatraceMonitorConfig where
  MonitorName : String
  ApiUrl : String
  DynatraceEquivalentClusterRegionId : String
  ClusterId : String
  ClusterRegion : String
deriving DecidableEq, Repr

/-- A parsed template: literal text and actions that print a field of the data. -/
inductive TemplateNode
  | text (s : String)
  | action (field : DynatraceMonitorConfig → String)

/-- The template `publicMonitorTemplate` as `template.Parse` reads it: the literal text
between its five actions, character for character, and the field each action prints. -/
def publicMonitorTemplate : List TemplateNode :=
  [ TemplateNode.text "\n\x7b\n    \"name\": \""
  , TemplateNode.action (fun cfg => cfg.MonitorName)
  , TemplateNode.text "\",\n    \"frequencyMin\": 1,\n    \"enabled\": true,\n    \"type\": \"HTTP\",\n    \"script\": \x7b\n        \"version\": \"1.0\",\n        \"requests\": [\n            \x7b\n                \"description\": \"api availability\",\n                \"url\": \""
  , TemplateNode.action (fun cfg => cfg.ApiUrl)
  , TemplateNode.text "\",\n                \"method\": \"GET\",\n                \"requestBody\": \"\",\n                \"preProcessingScript\": \"\",\n                \"postProcessingScript\": \"\"\n            \x7d\n        ]\n    \x7d,\n    \"locations\": [\""
  , TemplateNode.action (fun cfg => cfg.DynatraceEquivalentClusterRegionId)
  , TemplateNode.text "\"],\n    \"anomalyDetection\": \x7b\n        \"outageHandling\": \x7b\n            \"globalOutage\": true,\n            \"localOutage\": false,\n            \"localOutagePolicy\": \x7b\n                \"affectedLocations\": 1,\n                \"consecutiveRuns\": 1\n            \x7d\n        \x7d,\n        \"loadingTimeThresholds\": \x7b\n            \"enabled\": true,\n            \"thresholds\": [\n                \x7b\n                    \"type\": \"TOTAL\",\n                    \"valueMs\": 10000\n                \x7d\n            ]\n        \x7d\n    \x7d,\n\t\"tags\": [\n        \x7b\n            \"key\": \"cluster-id\",\n            \"value\": \""
  , TemplateNode.action (fun cfg => cfg.ClusterId)
  , TemplateNode.text "\"\n        \x7d,\n\t\t\x7b\n            \"key\": \"cluster-region\",\n            \"value\": \""
  , TemplateNode.action (fun cfg => cfg.ClusterRegion)
  , TemplateNode.text "\"\n        \x7d,\n        \x7b\n            \"key\": \"route-monitor-operator-managed\",\n            \"value\": \"true\"\n        \x7d,\n        \x7b\n            \"key\": \"hcp-cluster\",\n            \"value\": \"true\"\n        \x7d\n    ]\n\x7d\n" ]

/-- What `html/template` writes for one character of a string printed by an action that
stands in HTML text (its `htmlReplacementTable`): NUL, the double quote, the ampersand, the
apostrophe, the plus sign and the angle brackets are replaced, every other character is
kept. The template holds no `<`, so each of its actions stands in HTML text. -/
def htmlEscapeChar (ch : Char) : String :=
  if ch = Char.ofNat 0 then "\uFFFD"
  else if ch = Char.ofNat 34 then "&#34;"
  else if ch = '&' then "&amp;"
  else if ch = Char.ofNat 39 then "&#39;"
  else if ch = '+' then "&#43;"
  else if ch = '<' then "&lt;"
  else if ch = '>' then "&gt;"
  else String.singleton ch

/-- The escaper `html/template` applies to the value of an action in HTML text. -/
def htmlEscape (s : String) : String :=
  s.data.foldl (fun acc ch => acc ++ htmlEscapeChar ch) ""

/-- `tmpl.Execute(&tplBuffer, monitorConfig)` of `html/template`: the text written to the
buffer. For a template of text and string fields the call returns no error. -/
def Execute (tmpl : List TemplateNode) (monitorConfig : DynatraceMonitorConfig) : String :=
  tmpl.foldl
    (fun acc node =>
      match node with
      | TemplateNode.text s => acc ++ s
      | TemplateNode.action field => acc ++ htmlEscape (field monitorConfig))
    ""

/-- `CreateDynatraceHttpMonitor`: the remote state after the call, the returned monitor
id and the returned error. -/
def CreateDynatraceHttpMonitor {σ : Type} (h : HttpClient σ) (c : DynatraceApiClient)
    (monitorName apiUrl clusterId dynatraceEquivalentClusterRegionId clusterRegion : String)
    (s : σ) : σ × String × Option GoError :=
  let monitorConfig : DynatraceMonitorConfig :=
    { MonitorName := monitorName
      ApiUrl := apiUrl
      DynatraceEquivalentClusterRegionId := dynatraceEquivalentClusterRegionId
      ClusterId := clusterId
      ClusterRegion := clusterRegion }
  let renderedJSON := Execute publicMonitorTemplate monitorConfig
  match MakeRequest h c Method.POST "/synthetic/monitors" renderedJSON s with
  | (s1, Except.error err) => (s1, "", some err)
  | (s1, Except.ok resp) =>
    if resp.StatusCode ≠ 200 then
      (s1, "",
        some ⟨"failed to create HTTP monitor. Status code: " ++ toString resp.StatusCode⟩)
    else
      match resp.Body.decodeCreatedMonitor with
      | Except.error err => (s1, "", some ⟨"failed to fetch monitor id: " ++ err.Error⟩)
      | Except.ok createdMonitor => (s1, createdMonitor.EntityId, none)

/-- A remote service that answers every request with a fixed status and a body that
decodes to a created monitor with the given entity id. -/
def fixedService (status : Nat) (entityId : String) : HttpClient Unit where
  Do := fun u _ =>
    (u, Except.ok ⟨status,
      { decodeMonitors := Except.ok ⟨[]⟩
        decodeLocations := Except.ok ⟨[]⟩
        decodeCreatedMonitor := Except.ok ⟨entityId⟩ }⟩)

/-- A remote service whose token may read but not write: a GET is answered as by
`remoteService`, every other request answers 403 and changes nothing. -/
def readOnlyService (baseURL : String) : HttpClient (List RemoteMonitor) where
  Do := fun ms req =>
    match req.Method with
    | Method.GET => (remoteService baseURL).Do ms req
    | Method.DELETE => (ms, Except.ok ⟨403, emptyBody⟩)
    | Method.POST => (ms, Except.ok ⟨403, emptyBody⟩)

/-- The monitor definition that carries the given values as they are: the template text
with each action replaced by the value of its field, nothing escaped. -/
def substitute (tmpl : List TemplateNode) (monitorConfig : DynatraceMonitorConfig) : String :=
  tmpl.foldl
    (fun acc node =>
      match node with
      | TemplateNode.text s => acc ++ s
      | TemplateNode.action field => acc ++ field monitorConfig)
    ""

/-- The status code of a round trip that came back with a response. -/
def statusOf (a : Except GoError Response) : Option Nat :=
  match a with
  | Except.ok resp => some resp.StatusCode
  | Except.error _ => none

end dynatrace

namespace reconcileCommon

/-- C1: `SetErrorStatus` follows the four-way table: (non-empty, present) keeps the status
and returns false; (non-empty, nil) clears it and returns true; (empty, present) stores the
error text and returns true; (empty, nil) keeps it and returns false. -/
theorem SetErrorStatus_table (s : String) (e : Option GoError) :
    (s ≠ "" → e ≠ none → SetErrorStatus s e = (s, false)) ∧
    (s ≠ "" → e = none → SetErrorStatus s e = ("", true)) ∧
    (s = "" → ∀ err : GoError, e = some err → SetErrorStatus s e = (err.Error, true)) ∧
    (s = "" → e = none → SetErrorStatus s e = (s, false)) := by
  refine ⟨?_, ?_, ?_, ?_⟩
  · intro hs he
    cases e with
    | none => exact absurd rfl he
    | some err => simp [SetErrorStatus, areErrorAndErrorStatusFull, hs]
  · intro hs he
    subst he
    simp [SetErrorStatus, areErrorAndErrorStatusFull, needsErrorStatusToBeFlushed, hs]
  · intro hs err he
    subst hs; subst he
    simp [SetErrorStatus, areErrorAndErrorStatusFull, needsErrorStatusToBeFlushed,
      needsErrorStatusToBeSet]
  · intro hs he
    subst hs; subst he
    simp [SetErrorStatus, areErrorAndErrorStatusFull, needsErrorStatusToBeFlushed,
      needsErrorStatusToBeSet]

end reconcileCommon

namespace reconcileCommon

/-- Witness for C1: the four rows of the table at concrete inputs. -/
theorem SetErrorStatus_table_witness :
    SetErrorStatus "old" (some ⟨"boom"⟩) = ("old", false) ∧
    SetErrorStatus "old" none = ("", true) ∧
    SetErrorStatus "" (some ⟨"boom"⟩) = ("boom", true) ∧
    SetErrorStatus "" none = ("", false) :=
  ⟨(SetErrorStatus_table "old" (some ⟨"boom"⟩)).1 (by decide) (by simp),
   (SetErrorStatus_table "old" none).2.1 (by decide) rfl,
   (SetErrorStatus_table "" (some ⟨"boom"⟩)).2.2.1 rfl ⟨"boom"⟩ rfl,
   (SetErrorStatus_table "" none).2.2.2 rfl rfl⟩

/-- C2: `SetResourceReference` has three cases. When the current reference or the desired
target is the zero value, the reference becomes the desired target and the call returns
`(true, nil)`; otherwise, when the two differ, it returns `ErrInvalidReferenceUpdate`;
otherwise the reference is kept and the call returns `(false, nil)`. -/
theorem SetResourceReference_three_cases (cur : v1alpha1.NamespacedName)
    (t : types.NamespacedName) :
    ((cur = v1alpha1.NamespacedName.zero ∨ t = ⟨"", ""⟩) →
      SetResourceReference cur t = (⟨t.Name, t.Namespace⟩, true, none)) ∧
    (cur ≠ v1alpha1.NamespacedName.zero → t ≠ ⟨"", ""⟩ → cur ≠ ⟨t.Name, t.Namespace⟩ →
      (SetResourceReference cur t).2.2 = some customerrors.Sentinel.ErrInvalidReferenceUpdate) ∧
    (cur ≠ v1alpha1.NamespacedName.zero → t ≠ ⟨"", ""⟩ → cur = ⟨t.Name, t.Namespace⟩ →
      SetResourceReference cur t = (cur, false, none)) := by
  obtain ⟨tn, tns⟩ := t
  have hz : ((⟨tn, tns⟩ : v1alpha1.NamespacedName) = v1alpha1.NamespacedName.zero) ↔
      ((⟨tn, tns⟩ : types.NamespacedName) = ⟨"", ""⟩) := by
    simp [v1alpha1.NamespacedName.zero]
  refine ⟨?_, ?_, ?_⟩
  · intro h
    have h2 : cur = v1alpha1.NamespacedName.zero ∨
        (⟨tn, tns⟩ : v1alpha1.NamespacedName) = v1alpha1.NamespacedName.zero :=
      h.imp id hz.mpr
    simp only [SetResourceReference, if_pos h2]
  · intro hc ht hne
    have h2 : ¬ (cur = v1alpha1.NamespacedName.zero ∨
        (⟨tn, tns⟩ : v1alpha1.NamespacedName) = v1alpha1.NamespacedName.zero) := by
      rintro (h | h)
      · exact hc h
      · exact ht (hz.mp h)
    simp only [SetResourceReference, if_neg h2, if_pos hne]
  · intro hc ht heq
    have h2 : ¬ (cur = v1alpha1.NamespacedName.zero ∨
        (⟨tn, tns⟩ : v1alpha1.NamespacedName) = v1alpha1.NamespacedName.zero) := by
      rintro (h | h)
      · exact hc h
      · exact ht (hz.mp h)
    have h3 : ¬ (cur ≠ (⟨tn, tns⟩ : v1alpha1.NamespacedName)) := fun h => h heq
    simp only [SetResourceReference, if_neg h2, if_neg h3]

/-- Witness for C2: binding from the zero value, a conflicting rebinding and a rebinding
to the same target. -/
theorem SetResourceReference_three_cases_witness :
    SetResourceReference v1alpha1.NamespacedName.zero ⟨"a", "ns"⟩ = (⟨"a", "ns"⟩, true, none) ∧
    (SetResourceReference ⟨"a", "ns"⟩ ⟨"b", "ns"⟩).2.2 =
      some customerrors.Sentinel.ErrInvalidReferenceUpdate ∧
    SetResourceReference ⟨"a", "ns"⟩ ⟨"a", "ns"⟩ = (⟨"a", "ns"⟩, false, none) :=
  ⟨(SetResourceReference_three_cases v1alpha1.NamespacedName.zero ⟨"a", "ns"⟩).1 (Or.inl rfl),
   (SetResourceReference_three_cases ⟨"a", "ns"⟩ ⟨"b", "ns"⟩).2.1
     (by decide) (by decide) (by decide),
   (SetResourceReference_three_cases ⟨"a", "ns"⟩ ⟨"a", "ns"⟩).2.2
     (by decide) (by decide) rfl⟩

/-- C3: a bound (non-zero) reference is never rebound to a different non-zero target: such
a call returns `ErrInvalidReferenceUpdate` with `changed = false` and keeps the stored
reference. Whatever the target, a bound reference afterwards is either what it was or the
zero value, the latter only for the zero target. -/
theorem SetResourceReference_conflict_atomic (cur : v1alpha1.NamespacedName)
    (t : types.NamespacedName) (hcur : cur ≠ v1alpha1.NamespacedName.zero) :
    (t ≠ ⟨"", ""⟩ → cur ≠ ⟨t.Name, t.Namespace⟩ →
      SetResourceReference cur t =
        (cur, false, some customerrors.Sentinel.ErrInvalidReferenceUpdate)) ∧
    ((SetResourceReference cur t).1 = cur ∨
      (t = ⟨"", ""⟩ ∧ (SetResourceReference cur t).1 = v1alpha1.NamespacedName.zero)) := by
  obtain ⟨tn, tns⟩ := t
  have hz : ((⟨tn, tns⟩ : v1alpha1.NamespacedName) = v1alpha1.NamespacedName.zero) ↔
      ((⟨tn, tns⟩ : types.NamespacedName) = ⟨"", ""⟩) := by
    simp [v1alpha1.NamespacedName.zero]
  constructor
  · intro ht hne
    have h2 : ¬ (cur = v1alpha1.NamespacedName.zero ∨
        (⟨tn, tns⟩ : v1alpha1.NamespacedName) = v1alpha1.NamespacedName.zero) := by
      rintro (h | h)
      · exact hcur h
      · exact ht (hz.mp h)
    simp only [SetResourceReference, if_neg h2, if_pos hne]
  · by_cases ht : (⟨tn, tns⟩ : v1alpha1.NamespacedName) = v1alpha1.NamespacedName.zero
    · right
      refine ⟨hz.mp ht, ?_⟩
      simp only [SetResourceReference, if_pos (Or.inr ht)]
      exact ht
    · left
      have h2 : ¬ (cur = v1alpha1.NamespacedName.zero ∨
          (⟨tn, tns⟩ : v1alpha1.NamespacedName) = v1alpha1.NamespacedName.zero) := by
        rintro (h | h)
        · exact hcur h
        · exact ht h
      simp only [SetResourceReference, if_neg h2]
      split <;> rfl

/-- Witness for C3: rebinding `a/ns` to `b/ns` is rejected and keeps `a/ns`. -/
theorem SetResourceReference_conflict_atomic_witness :
    SetResourceReference ⟨"a", "ns"⟩ ⟨"b", "ns"⟩ =
      (⟨"a", "ns"⟩, false, some customerrors.Sentinel.ErrInvalidReferenceUpdate) :=
  (SetResourceReference_conflict_atomic ⟨"a", "ns"⟩ ⟨"b", "ns"⟩ (by decide)).1
    (by decide) (by decide)

/-- Away from the one input of an empty status met by an error whose text is empty, the
status after `SetErrorStatus` is non-empty exactly when the error was present; and
whatever the prior status, the status is empty once the error is nil. -/
theorem SetErrorStatus_flags_error_elsewhere (s : String) (e : Option GoError)
    (hcorner : s ≠ "" ∨ ∀ err : GoError, e = some err → err.Error ≠ "") :
    ((SetErrorStatus s e).1 ≠ "" ↔ e ≠ none) ∧
    (e = none → (SetErrorStatus s e).1 = "") := by
  cases e with
  | none =>
    by_cases hs : s = "" <;>
      simp [SetErrorStatus, areErrorAndErrorStatusFull, needsErrorStatusToBeFlushed,
        needsErrorStatusToBeSet, hs]
  | some err =>
    by_cases hs : s = ""
    · have hm : err.Error ≠ "" := by
        rcases hcorner with h | h
        · exact absurd hs h
        · exact h err rfl
      simp [SetErrorStatus, areErrorAndErrorStatusFull, needsErrorStatusToBeFlushed,
        needsErrorStatusToBeSet, hs, hm]
    · simp [SetErrorStatus, areErrorAndErrorStatusFull, needsErrorStatusToBeFlushed,
        needsErrorStatusToBeSet, hs]

/-- C4 at its failing input: with an empty status and an error whose text is empty,
`SetErrorStatus` takes the case of an error that has started firing and returns true, yet
the status after the call is empty although the error is present, so the status is not
non-empty exactly when the error was present. -/
theorem SetErrorStatus_empty_text_not_flagged :
    SetErrorStatus "" (some ⟨""⟩) = ("", true) ∧
    needsErrorStatusToBeSet "" (some ⟨""⟩) = true ∧
    ¬ ((SetErrorStatus "" (some ⟨""⟩)).1 ≠ "" ↔
      (some (GoError.mk "") : Option GoError) ≠ none) := by
  refine ⟨by decide, by decide, ?_⟩
  simp [SetErrorStatus, areErrorAndErrorStatusFull, needsErrorStatusToBeFlushed,
    needsErrorStatusToBeSet]

end reconcileCommon

namespace dynatrace

/-- Appending to the same prefix is injective on strings. -/
theorem string_append_right_inj (a b c : String) : a ++ b = a ++ c ↔ b = c := by
  constructor
  · intro h
    have hd := congrArg String.data h
    simp only [String.data_append] at hd
    exact String.ext (List.append_cancel_left hd)
  · intro h
    rw [h]

/-- The request `MakeRequest` sends for a monitor list is `listRequest`. -/
theorem MakeRequest_list {σ : Type} (h : HttpClient σ) (c : DynatraceApiClient)
    (clusterId : String) (s : σ) :
    MakeRequest h c Method.GET ("/synthetic/monitors/?tag=cluster-id:" ++ clusterId) "" s =
      h.Do s (listRequest c clusterId) := by
  simp [MakeRequest, listRequest]

/-- The request `MakeRequest` sends for a deletion is `deleteRequest`. -/
theorem MakeRequest_delete {σ : Type} (h : HttpClient σ) (c : DynatraceApiClient)
    (entityId : String) (s : σ) :
    MakeRequest h c Method.DELETE ("/synthetic/monitors/" ++ entityId) "" s =
      h.Do s (deleteRequest c entityId) := by
  simp [MakeRequest, deleteRequest]

/-- The remote service answers a list request with the monitors tagged with the cluster
id and keeps its state. -/
theorem remoteService_list (c : DynatraceApiClient) (clusterId : String)
    (ms : List RemoteMonitor) :
    (remoteService c.baseURL).Do ms (listRequest c clusterId) =
      (ms, Except.ok ⟨200, monitorsBody
        ((taggedWith clusterId ms).map (fun m => ⟨m.entityId⟩))⟩) := by
  have hf : (ms.filter (fun m => decide (c.baseURL ++
      ("/synthetic/monitors/?tag=cluster-id:" ++ clusterId) =
        c.baseURL ++ ("/synthetic/monitors/?tag=cluster-id:" ++ m.clusterId)))) =
      taggedWith clusterId ms := by
    unfold taggedWith
    apply List.filter_congr
    intro m _
    simp only [string_append_right_inj, decide_eq_decide]
    exact eq_comm
  simp only [remoteService, listRequest, hf]

/-- The remote service answers the deletion of a held monitor with 204 and drops it. -/
theorem remoteService_delete_held (c : DynatraceApiClient) (entityId : String)
    (ms : List RemoteMonitor) (hheld : ∃ m ∈ ms, m.entityId = entityId) :
    (remoteService c.baseURL).Do ms (deleteRequest c entityId) =
      (ms.filter (fun m => m.entityId ≠ entityId), Except.ok ⟨204, emptyBody⟩) := by
  have hany : ms.any (fun m => decide (c.baseURL ++ ("/synthetic/monitors/" ++ entityId) =
      c.baseURL ++ ("/synthetic/monitors/" ++ m.entityId))) = true := by
    obtain ⟨m, hm, he⟩ := hheld
    rw [List.any_eq_true]
    exact ⟨m, hm, by simp [he]⟩
  have hf : (ms.filter (fun m => decide (c.baseURL ++ ("/synthetic/monitors/" ++ entityId) ≠
      c.baseURL ++ ("/synthetic/monitors/" ++ m.entityId)))) =
      ms.filter (fun m => m.entityId ≠ entityId) := by
    apply List.filter_congr
    intro m _
    simp only [ne_eq, string_append_right_inj, decide_not, Bool.not_eq_eq_eq_not,
      decide_eq_decide, Bool.not_not]
    simp [eq_comm]
  simp only [remoteService, deleteRequest, hany, hf, if_true]

/-- On the remote service, the deletion loop over distinct held monitors succeeds and
leaves exactly the monitors it was not asked to delete. -/
theorem deleteEach_remoteService (c : DynatraceApiClient) (listStatus : Nat)
    (l : List Monitor) (ms : List RemoteMonitor)
    (hnodup : (l.map (fun x => x.EntityId)).Nodup)
    (hheld : ∀ x ∈ l, ∃ m ∈ ms, m.entityId = x.EntityId) :
    deleteEach (remoteService c.baseURL) c listStatus l ms =
      (ms.filter (fun m => m.entityId ∉ l.map (fun x => x.EntityId)), none) := by
  induction l generalizing ms with
  | nil => simp [deleteEach]
  | cons x rest ih =>
    have hx : ∃ m ∈ ms, m.entityId = x.EntityId := hheld x (List.mem_cons_self _ _)
    rw [List.map_cons, List.nodup_cons] at hnodup
    obtain ⟨hxrest, hrest⟩ := hnodup
    have hheld2 : ∀ y ∈ rest, ∃ m ∈ ms.filter (fun m => m.entityId ≠ x.EntityId),
        m.entityId = y.EntityId := by
      intro y hy
      obtain ⟨m, hm, he⟩ := hheld y (List.mem_cons_of_mem _ hy)
      refine ⟨m, ?_, he⟩
      rw [List.mem_filter]
      refine ⟨hm, ?_⟩
      have hne : m.entityId ≠ x.EntityId := by
        intro heq
        apply hxrest
        rw [← heq, he]
        exact List.mem_map_of_mem (fun z => z.EntityId) hy
      simpa using hne
    simp only [deleteEach, MakeRequest_delete, remoteService_delete_held c x.EntityId ms hx]
    rw [if_neg (by simp), ih _ hrest hheld2, List.filter_filter]
    congr 1
    apply List.filter_congr
    intro m _
    simp only [List.map_cons, List.mem_cons, not_or, ne_eq, Bool.decide_and, decide_not]
    rw [Bool.and_comm]

/-- On the remote service, whose entity ids are distinct, `DeleteDynatraceHttpMonitor`
succeeds and leaves exactly the monitors of the other cluster ids. -/
theorem DeleteDynatraceHttpMonitor_remoteService (c : DynatraceApiClient) (clusterId : String)
    (ms : List RemoteMonitor) (hnodup : (ms.map (fun m => m.entityId)).Nodup) :
    DeleteDynatraceHttpMonitor (remoteService c.baseURL) c clusterId ms =
      (ms.filter (fun m => m.clusterId ≠ clusterId), none) := by
  simp only [DeleteDynatraceHttpMonitor, MakeRequest_list, remoteService_list, monitorsBody]
  rw [if_neg (by simp)]
  by_cases hz : ((taggedWith clusterId ms).map (fun m => (⟨m.entityId⟩ : Monitor))).length = 0
  · simp only [hz, if_true]
    have hnil : taggedWith clusterId ms = [] := by
      rw [List.length_map] at hz
      exact List.length_eq_zero.mp hz
    congr 1
    symm
    rw [List.filter_eq_self]
    intro m hm
    have hnot : m ∉ taggedWith clusterId ms := by
      rw [hnil]
      exact List.not_mem_nil m
    unfold taggedWith at hnot
    rw [List.mem_filter] at hnot
    simpa [hm] using hnot
  · simp only [hz, if_false]
    have hsub : (taggedWith clusterId ms).Sublist ms := List.filter_sublist _
    have hnd : (((taggedWith clusterId ms).map (fun m => (⟨m.entityId⟩ : Monitor))).map
        (fun x => x.EntityId)).Nodup := by
      rw [List.map_map]
      exact hnodup.sublist (hsub.map _)
    have hheld : ∀ x ∈ (taggedWith clusterId ms).map (fun m => (⟨m.entityId⟩ : Monitor)),
        ∃ m ∈ ms, m.entityId = x.EntityId := by
      intro x hx
      rw [List.mem_map] at hx
      obtain ⟨m, hm, rfl⟩ := hx
      exact ⟨m, hsub.subset hm, rfl⟩
    rw [deleteEach_remoteService c 200 _ ms hnd hheld]
    congr 1
    apply List.filter_congr
    intro m hm
    have hiff : m.entityId ∈ ((taggedWith clusterId ms).map
        (fun m => (⟨m.entityId⟩ : Monitor))).map (fun x => x.EntityId) ↔
        m.clusterId = clusterId := by
      rw [List.map_map]
      constructor
      · intro hin
        rw [List.mem_map] at hin
        obtain ⟨m2, hm2, he⟩ := hin
        have hm2s : m2 ∈ ms := hsub.subset hm2
        have heq : m2 = m := List.inj_on_of_nodup_map hnodup hm2s hm he
        unfold taggedWith at hm2
        rw [List.mem_filter] at hm2
        rw [← heq]
        simpa using hm2.2
      · intro hc
        rw [List.mem_map]
        refine ⟨m, ?_, rfl⟩
        unfold taggedWith
        rw [List.mem_filter]
        exact ⟨hm, by simpa using hc⟩
    simp only [hiff, ne_eq]

/-- The dedup loop returns `(true, nil)` in the state its deletions leave when each of
them succeeds. -/
theorem dedupLoop_of_deleteTimes {σ : Type} (h : HttpClient σ) (c : DynatraceApiClient)
    (clusterId : String) (k : Nat) (s s2 : σ)
    (hdel : deleteTimes h c clusterId k s = (s2, none)) :
    dedupLoop h c clusterId k s = (s2, true, none) := by
  induction k generalizing s with
  | zero =>
    simp only [deleteTimes, Prod.mk.injEq, and_true] at hdel
    simp [dedupLoop, hdel]
  | succ k ih =>
    simp only [deleteTimes] at hdel
    simp only [dedupLoop]
    split at hdel
    · simp at hdel
    · next s1 heq =>
      exact ih s1 hdel

/-- On the remote service, whose entity ids are distinct, one or more calls of
`DeleteDynatraceHttpMonitor` in a row all succeed and leave exactly the monitors of the
other cluster ids. -/
theorem deleteTimes_remoteService (c : DynatraceApiClient) (clusterId : String) (k : Nat)
    (ms : List RemoteMonitor) (hnodup : (ms.map (fun m => m.entityId)).Nodup) :
    deleteTimes (remoteService c.baseURL) c clusterId (k + 1) ms =
      (ms.filter (fun m => m.clusterId ≠ clusterId), none) := by
  induction k generalizing ms with
  | zero =>
    simp only [deleteTimes, DeleteDynatraceHttpMonitor_remoteService c clusterId ms hnodup]
  | succ k ih =>
    have hsub : (ms.filter (fun m => m.clusterId ≠ clusterId)).Sublist ms :=
      List.filter_sublist _
    have hnd : ((ms.filter (fun m => m.clusterId ≠ clusterId)).map
        (fun m => m.entityId)).Nodup := hnodup.sublist (hsub.map _)
    rw [deleteTimes, DeleteDynatraceHttpMonitor_remoteService c clusterId ms hnodup]
    simp only
    rw [ih _ hnd, List.filter_filter]
    simp

/-- When the list request answers 200 with more than one monitor,
`ExistsHttpMonitorInDynatrace` is the dedup loop of `n - 1` iterations. -/
theorem ExistsHttpMonitorInDynatrace_many {σ : Type} (h : HttpClient σ)
    (c : DynatraceApiClient) (clusterId : String) (s s1 : σ) (resp : Response)
    (r : ExistsHttpMonitorInDynatraceResponse)
    (hlist : MakeRequest h c Method.GET ("/synthetic/monitors/?tag=cluster-id:" ++ clusterId)
      "" s = (s1, Except.ok resp))
    (hstatus : resp.StatusCode = 200)
    (hbody : resp.Body.decodeMonitors = Except.ok r)
    (hgt : r.Monitors.length > 1) :
    ExistsHttpMonitorInDynatrace h c clusterId s =
      dedupLoop h c clusterId (r.Monitors.length - 1) s1 := by
  have hne : ¬ (resp.StatusCode ≠ 200) := fun hn => hn hstatus
  have hn1 : ¬ (r.Monitors.length = 1) := by omega
  have hn0 : ¬ (r.Monitors.length = 0) := by omega
  simp only [ExistsHttpMonitorInDynatrace, hlist, if_neg hne, hbody, if_neg hn1,
    if_neg hn0, if_pos hgt]

/-- C5: when the list request of `ExistsHttpMonitorInDynatrace` answers 200 with a
well-formed body of `n` monitors, the call returns `(false, nil)` for `n = 0`,
`(true, nil)` for `n = 1`, and for `n > 1` it runs `DeleteDynatraceHttpMonitor` for the
cluster id (`n - 1` calls in a row) and, provided those calls succeed, returns
`(true, nil)` in the state they leave. -/
theorem ExistsHttpMonitorInDynatrace_by_count {σ : Type} (h : HttpClient σ)
    (c : DynatraceApiClient) (clusterId : String) (s s1 : σ) (resp : Response)
    (r : ExistsHttpMonitorInDynatraceResponse)
    (hlist : MakeRequest h c Method.GET ("/synthetic/monitors/?tag=cluster-id:" ++ clusterId)
      "" s = (s1, Except.ok resp))
    (hstatus : resp.StatusCode = 200)
    (hbody : resp.Body.decodeMonitors = Except.ok r) :
    (r.Monitors.length = 0 →
      ExistsHttpMonitorInDynatrace h c clusterId s = (s1, false, none)) ∧
    (r.Monitors.length = 1 →
      ExistsHttpMonitorInDynatrace h c clusterId s = (s1, true, none)) ∧
    (r.Monitors.length > 1 → ∀ s2 : σ,
      deleteTimes h c clusterId (r.Monitors.length - 1) s1 = (s2, none) →
      ExistsHttpMonitorInDynatrace h c clusterId s = (s2, true, none)) := by
  have hne : ¬ (resp.StatusCode ≠ 200) := fun hn => hn hstatus
  refine ⟨?_, ?_, ?_⟩
  · intro h0
    simp only [ExistsHttpMonitorInDynatrace, hlist, if_neg hne, hbody, h0]
    simp
  · intro h1
    simp only [ExistsHttpMonitorInDynatrace, hlist, if_neg hne, hbody, h1]
    simp
  · intro hgt s2 hdel
    rw [ExistsHttpMonitorInDynatrace_many h c clusterId s s1 resp r hlist hstatus hbody hgt]
    exact dedupLoop_of_deleteTimes h c clusterId _ s1 s2 hdel

/-- Witness for C5: three monitors listed for cluster `c1` on the remote service. -/
theorem ExistsHttpMonitorInDynatrace_by_count_witness :
    ExistsHttpMonitorInDynatrace (remoteService "https://dt") ⟨"https://dt", "tok"⟩ "c1"
      [⟨"m1", "c1"⟩, ⟨"m2", "c1"⟩, ⟨"m3", "c2"⟩, ⟨"m4", "c1"⟩] =
      ([⟨"m3", "c2"⟩], true, none) :=
  (ExistsHttpMonitorInDynatrace_by_count (remoteService "https://dt") ⟨"https://dt", "tok"⟩
    "c1" [⟨"m1", "c1"⟩, ⟨"m2", "c1"⟩, ⟨"m3", "c2"⟩, ⟨"m4", "c1"⟩]
    [⟨"m1", "c1"⟩, ⟨"m2", "c1"⟩, ⟨"m3", "c2"⟩, ⟨"m4", "c1"⟩]
    ⟨200, monitorsBody [⟨"m1"⟩, ⟨"m2"⟩, ⟨"m4"⟩]⟩ ⟨[⟨"m1"⟩, ⟨"m2"⟩, ⟨"m4"⟩]⟩
    rfl rfl rfl).2.2 (by decide) [⟨"m3", "c2"⟩] rfl

/-- C6: on the remote service (a DELETE of a held monitor answers 204 and removes it,
nothing else changes the state, entity ids are distinct), when
`ExistsHttpMonitorInDynatrace` observes two or more monitors for a cluster id it returns
`(true, nil)`, it leaves no monitor of that cluster id (the first listed one included)
and every monitor of the other cluster ids, and a list request made afterwards answers
200 with zero monitors. -/
theorem ExistsHttpMonitorInDynatrace_dedup_deletes_all (c : DynatraceApiClient)
    (clusterId : String) (ms : List RemoteMonitor)
    (hnodup : (ms.map (fun m => m.entityId)).Nodup)
    (hdup : 2 ≤ (taggedWith clusterId ms).length) :
    ExistsHttpMonitorInDynatrace (remoteService c.baseURL) c clusterId ms =
      (ms.filter (fun m => m.clusterId ≠ clusterId), true, none) ∧
    taggedWith clusterId
      (ExistsHttpMonitorInDynatrace (remoteService c.baseURL) c clusterId ms).1 = [] ∧
    MakeRequest (remoteService c.baseURL) c Method.GET
      ("/synthetic/monitors/?tag=cluster-id:" ++ clusterId) ""
      (ExistsHttpMonitorInDynatrace (remoteService c.baseURL) c clusterId ms).1 =
      (ms.filter (fun m => m.clusterId ≠ clusterId),
        Except.ok ⟨200, monitorsBody []⟩) := by
  have hlen : ((taggedWith clusterId ms).map (fun m => (⟨m.entityId⟩ : Monitor))).length =
      (taggedWith clusterId ms).length := List.length_map _ _
  have hcall : ExistsHttpMonitorInDynatrace (remoteService c.baseURL) c clusterId ms =
      (ms.filter (fun m => m.clusterId ≠ clusterId), true, none) := by
    rw [ExistsHttpMonitorInDynatrace_many (remoteService c.baseURL) c clusterId ms ms
      ⟨200, monitorsBody ((taggedWith clusterId ms).map
        (fun m : RemoteMonitor => (⟨m.entityId⟩ : Monitor)))⟩
      ⟨(taggedWith clusterId ms).map (fun m : RemoteMonitor => (⟨m.entityId⟩ : Monitor))⟩
      (by rw [MakeRequest_list, remoteService_list]) rfl rfl (by simp only [hlen]; omega)]
    apply dedupLoop_of_deleteTimes
    obtain ⟨k, hk⟩ : ∃ k, ((taggedWith clusterId ms).map
        (fun m => (⟨m.entityId⟩ : Monitor))).length - 1 = k + 1 :=
      ⟨(taggedWith clusterId ms).length - 2, by rw [hlen]; omega⟩
    simp only [hk]
    exact deleteTimes_remoteService c clusterId k ms hnodup
  have hnone : taggedWith clusterId (ms.filter (fun m => m.clusterId ≠ clusterId)) = [] := by
    unfold taggedWith
    rw [List.filter_filter, List.filter_eq_nil_iff]
    intro m _
    simp
  refine ⟨hcall, ?_, ?_⟩
  · rw [hcall]
    exact hnone
  · rw [hcall, MakeRequest_list, remoteService_list]
    simp only [hnone, List.map_nil]

/-- Witness for C6: two monitors of cluster `c1` and one of cluster `c2`. -/
theorem ExistsHttpMonitorInDynatrace_dedup_deletes_all_witness :
    ExistsHttpMonitorInDynatrace (remoteService "https://dt") ⟨"https://dt", "tok"⟩ "c1"
      [⟨"m1", "c1"⟩, ⟨"m2", "c1"⟩, ⟨"m3", "c2"⟩] = ([⟨"m3", "c2"⟩], true, none) :=
  (ExistsHttpMonitorInDynatrace_dedup_deletes_all ⟨"https://dt", "tok"⟩ "c1"
    [⟨"m1", "c1"⟩, ⟨"m2", "c1"⟩, ⟨"m3", "c2"⟩] (by decide) (by decide)).1

/-- What the recording client does on one round trip. -/
theorem recording_Do {σ : Type} (h : HttpClient σ) (s : σ) (log : List Exchange)
    (req : Request) :
    (recording h).Do (s, log) req =
      (((h.Do s req).1, log ++ [⟨req, (h.Do s req).2⟩]), (h.Do s req).2) := by
  simp only [recording]

/-- The record of the deletion loop: the round trips it adds are DELETE requests for a
prefix of the monitors, in order; either all of them were sent, all answered 204 and the
loop returns nil, or the loop returns an error and the last one sent is the first that did
not answer 204. -/
theorem deleteEach_recording {σ : Type} (h : HttpClient σ) (c : DynatraceApiClient)
    (listStatus : Nat) (l : List Monitor) (s : σ) (log : List Exchange) :
    ∃ dels : List Exchange,
      (deleteEach (recording h) c listStatus l (s, log)).1.2 = log ++ dels ∧
      dels.map (fun e => e.request) =
        (l.take dels.length).map (fun m => deleteRequest c m.EntityId) ∧
      (((deleteEach (recording h) c listStatus l (s, log)).2 = none ∧
          dels.length = l.length ∧ ∀ e ∈ dels, answered204 e.answer = true) ∨
       ((deleteEach (recording h) c listStatus l (s, log)).2 ≠ none ∧
          ∃ init last, dels = init ++ [last] ∧
            (∀ e ∈ init, answered204 e.answer = true) ∧
            answered204 last.answer = false)) := by
  induction l generalizing s log with
  | nil =>
    refine ⟨[], ?_, ?_, Or.inl ?_⟩ <;> simp [deleteEach]
  | cons m rest ih =>
    simp only [deleteEach, MakeRequest_delete, recording_Do]
    cases hans : (h.Do s (deleteRequest c m.EntityId)).2 with
    | error err =>
      refine ⟨[⟨deleteRequest c m.EntityId, Except.error err⟩], ?_, ?_, Or.inr ⟨?_, ?_⟩⟩
      · simp
      · simp
      · simp
      · exact ⟨[], ⟨deleteRequest c m.EntityId, Except.error err⟩, rfl, by simp,
          by simp [answered204]⟩
    | ok del =>
      by_cases h204 : del.StatusCode = 204
      · obtain ⟨dels, hlog, hreqs, hres⟩ := ih (h.Do s (deleteRequest c m.EntityId)).1
          (log ++ [⟨deleteRequest c m.EntityId, Except.ok del⟩])
        have hnot : ¬ (del.StatusCode ≠ 204) := fun hn => hn h204
        simp only [if_neg hnot]
        refine ⟨⟨deleteRequest c m.EntityId, Except.ok del⟩ :: dels, ?_, ?_, ?_⟩
        · rw [hlog]
          simp
        · simp [hreqs]
        · rcases hres with ⟨hnone, hlen, hall⟩ | ⟨hsome, init, last, hd, hinit, hlast⟩
          · left
            refine ⟨hnone, by simp [hlen], ?_⟩
            intro e he
            rw [List.mem_cons] at he
            rcases he with rfl | he
            · simp [answered204, h204]
            · exact hall e he
          · right
            refine ⟨hsome, ⟨deleteRequest c m.EntityId, Except.ok del⟩ :: init, last, ?_, ?_,
              hlast⟩
            · rw [hd]
              rfl
            · intro e he
              rw [List.mem_cons] at he
              rcases he with rfl | he
              · simp [answered204, h204]
              · exact hinit e he
      · simp only [if_pos h204]
        refine ⟨[⟨deleteRequest c m.EntityId, Except.ok del⟩], ?_, ?_, Or.inr ⟨?_, ?_⟩⟩
        · simp
        · simp
        · simp
        · exact ⟨[], ⟨deleteRequest c m.EntityId, Except.ok del⟩, rfl, by simp,
            by simp [answered204, h204]⟩

/-- C7: when the list request of `DeleteDynatraceHttpMonitor` answers 200 with one or more
monitors, the round trips that follow it are DELETE requests on
`/synthetic/monitors/<entityId>` for a prefix of the listed entity ids, in list order; the
call returns nil exactly when a DELETE was sent for every listed monitor and each answered
204; and when it returns an error, the last DELETE sent is the first whose answer is not a
204 response, so the remaining ones were not attempted. -/
theorem DeleteDynatraceHttpMonitor_deletes_in_order {σ : Type} (h : HttpClient σ)
    (c : DynatraceApiClient) (clusterId : String) (s s1 : σ) (resp : Response)
    (r : ExistsHttpMonitorInDynatraceResponse)
    (hlist : MakeRequest h c Method.GET ("/synthetic/monitors/?tag=cluster-id:" ++ clusterId)
      "" s = (s1, Except.ok resp))
    (hstatus : resp.StatusCode = 200)
    (hbody : resp.Body.decodeMonitors = Except.ok r)
    (hsome : r.Monitors ≠ []) :
    ∃ dels : List Exchange,
      (DeleteDynatraceHttpMonitor (recording h) c clusterId (s, [])).1.2 =
        ⟨listRequest c clusterId, Except.ok resp⟩ :: dels ∧
      dels.map (fun e => e.request) =
        (r.Monitors.take dels.length).map (fun m => deleteRequest c m.EntityId) ∧
      ((DeleteDynatraceHttpMonitor (recording h) c clusterId (s, [])).2 = none ↔
        (dels.length = r.Monitors.length ∧ ∀ e ∈ dels, answered204 e.answer = true)) ∧
      ((DeleteDynatraceHttpMonitor (recording h) c clusterId (s, [])).2 ≠ none →
        ∃ init last, dels = init ++ [last] ∧
          (∀ e ∈ init, answered204 e.answer = true) ∧
          answered204 last.answer = false) := by
  rw [MakeRequest_list] at hlist
  have hne : ¬ (resp.StatusCode ≠ 200) := fun hn => hn hstatus
  have hlen : ¬ (r.Monitors.length = 0) := fun h0 => hsome (List.length_eq_zero.mp h0)
  have hrun : DeleteDynatraceHttpMonitor (recording h) c clusterId (s, []) =
      deleteEach (recording h) c resp.StatusCode r.Monitors
        (s1, [⟨listRequest c clusterId, Except.ok resp⟩]) := by
    simp only [DeleteDynatraceHttpMonitor, MakeRequest_list, recording_Do, hlist, if_neg hne,
      hbody, if_neg hlen, List.nil_append]
  obtain ⟨dels, hlog, hreqs, hres⟩ := deleteEach_recording h c resp.StatusCode r.Monitors s1
    [⟨listRequest c clusterId, Except.ok resp⟩]
  rw [hrun]
  refine ⟨dels, ?_, hreqs, ?_, ?_⟩
  · rw [hlog]
    rfl
  · rcases hres with ⟨hnone, hl, hall⟩ | ⟨hsm, init, last, hd, _, hlast⟩
    · exact ⟨fun _ => ⟨hl, hall⟩, fun _ => hnone⟩
    · constructor
      · intro hn
        exact absurd hn hsm
      · intro hall
        have hmem : last ∈ dels := by
          rw [hd]
          simp
        have h204 := hall.2 last hmem
        rw [hlast] at h204
        exact absurd h204 (by decide)
  · intro hsm
    rcases hres with ⟨hnone, _, _⟩ | ⟨_, hex⟩
    · exact absurd hnone hsm
    · exact hex

/-- Witness for C7: two monitors of cluster `c1` on the remote service. -/
theorem DeleteDynatraceHttpMonitor_deletes_in_order_witness :
    ∃ dels : List Exchange,
      (DeleteDynatraceHttpMonitor (recording (remoteService "https://dt"))
          ⟨"https://dt", "tok"⟩ "c1" ([⟨"m1", "c1"⟩, ⟨"m2", "c1"⟩], [])).1.2 =
        ⟨listRequest ⟨"https://dt", "tok"⟩ "c1",
          Except.ok ⟨200, monitorsBody [⟨"m1"⟩, ⟨"m2"⟩]⟩⟩ :: dels ∧
      dels.map (fun e => e.request) =
        (([⟨"m1"⟩, ⟨"m2"⟩] : List Monitor).take dels.length).map
          (fun m => deleteRequest ⟨"https://dt", "tok"⟩ m.EntityId) ∧
      ((DeleteDynatraceHttpMonitor (recording (remoteService "https://dt"))
          ⟨"https://dt", "tok"⟩ "c1" ([⟨"m1", "c1"⟩, ⟨"m2", "c1"⟩], [])).2 = none ↔
        (dels.length = ([⟨"m1"⟩, ⟨"m2"⟩] : List Monitor).length ∧
          ∀ e ∈ dels, answered204 e.answer = true)) ∧
      ((DeleteDynatraceHttpMonitor (recording (remoteService "https://dt"))
          ⟨"https://dt", "tok"⟩ "c1" ([⟨"m1", "c1"⟩, ⟨"m2", "c1"⟩], [])).2 ≠ none →
        ∃ init last, dels = init ++ [last] ∧
          (∀ e ∈ init, answered204 e.answer = true) ∧
          answered204 last.answer = false) :=
  DeleteDynatraceHttpMonitor_deletes_in_order (remoteService "https://dt")
    ⟨"https://dt", "tok"⟩ "c1" [⟨"m1", "c1"⟩, ⟨"m2", "c1"⟩] [⟨"m1", "c1"⟩, ⟨"m2", "c1"⟩]
    ⟨200, monitorsBody [⟨"m1"⟩, ⟨"m2"⟩]⟩ ⟨[⟨"m1"⟩, ⟨"m2"⟩]⟩ rfl rfl rfl
    (List.cons_ne_nil _ _)

/-- C8: when the list request of `DeleteDynatraceHttpMonitor` answers 200 with zero
monitors, the call returns nil, the only round trip is that single list GET (no DELETE is
sent) and the remote state is the one the GET left; on the remote service, where a GET
changes nothing, the state after the call is the state before it. -/
theorem DeleteDynatraceHttpMonitor_noop (c : DynatraceApiClient) (clusterId : String) :
    (∀ (σ : Type) (h : HttpClient σ) (s s1 : σ) (resp : Response)
        (r : ExistsHttpMonitorInDynatraceResponse),
      MakeRequest h c Method.GET ("/synthetic/monitors/?tag=cluster-id:" ++ clusterId) "" s =
        (s1, Except.ok resp) →
      resp.StatusCode = 200 →
      resp.Body.decodeMonitors = Except.ok r →
      r.Monitors.length = 0 →
      (DeleteDynatraceHttpMonitor (recording h) c clusterId (s, [])).2 = none ∧
      (DeleteDynatraceHttpMonitor (recording h) c clusterId (s, [])).1.1 = s1 ∧
      ((DeleteDynatraceHttpMonitor (recording h) c clusterId (s, [])).1.2).map
        (fun e => e.request) = [listRequest c clusterId] ∧
      DeleteDynatraceHttpMonitor h c clusterId s = (s1, none)) ∧
    (∀ ms : List RemoteMonitor, taggedWith clusterId ms = [] →
      DeleteDynatraceHttpMonitor (remoteService c.baseURL) c clusterId ms = (ms, none)) := by
  constructor
  · intro σ h s s1 resp r hlist hstatus hbody hzero
    have hne : ¬ (resp.StatusCode ≠ 200) := fun hn => hn hstatus
    have hplain : DeleteDynatraceHttpMonitor h c clusterId s = (s1, none) := by
      simp only [DeleteDynatraceHttpMonitor, hlist, if_neg hne, hbody, if_pos hzero]
    rw [MakeRequest_list] at hlist
    have hrun : DeleteDynatraceHttpMonitor (recording h) c clusterId (s, []) =
        ((s1, [⟨listRequest c clusterId, Except.ok resp⟩]), none) := by
      simp only [DeleteDynatraceHttpMonitor, MakeRequest_list, recording_Do, hlist,
        if_neg hne, hbody, if_pos hzero, List.nil_append]
    rw [hrun]
    exact ⟨rfl, rfl, rfl, hplain⟩
  · intro ms hnone
    simp only [DeleteDynatraceHttpMonitor, MakeRequest_list, remoteService_list, hnone,
      monitorsBody]
    simp

/-- Witness for C8: cluster `c9` has no monitor on the remote service. -/
theorem DeleteDynatraceHttpMonitor_noop_witness :
    DeleteDynatraceHttpMonitor (remoteService "https://dt") ⟨"https://dt", "tok"⟩ "c9"
      [⟨"m1", "c1"⟩, ⟨"m2", "c1"⟩] = ([⟨"m1", "c1"⟩, ⟨"m2", "c1"⟩], none) ∧
    ((DeleteDynatraceHttpMonitor (recording (remoteService "https://dt"))
      ⟨"https://dt", "tok"⟩ "c9" ([⟨"m1", "c1"⟩, ⟨"m2", "c1"⟩], [])).1.2).map
        (fun e => e.request) = [listRequest ⟨"https://dt", "tok"⟩ "c9"] :=
  ⟨(DeleteDynatraceHttpMonitor_noop ⟨"https://dt", "tok"⟩ "c9").2
      [⟨"m1", "c1"⟩, ⟨"m2", "c1"⟩] (by decide),
   ((DeleteDynatraceHttpMonitor_noop ⟨"https://dt", "tok"⟩ "c9").1 (List RemoteMonitor)
      (remoteService "https://dt") [⟨"m1", "c1"⟩, ⟨"m2", "c1"⟩] [⟨"m1", "c1"⟩, ⟨"m2", "c1"⟩]
      ⟨200, monitorsBody []⟩ ⟨[]⟩ rfl rfl rfl rfl).2.2.1⟩

/-- `stringsContains s substr` holds exactly when `s` is `substr` between two strings. -/
theorem stringsContains_iff (s substr : String) :
    stringsContains s substr = true ↔ ∃ pre post : String, s = pre ++ substr ++ post := by
  unfold stringsContains
  rw [decide_eq_true_iff]
  constructor
  · rintro ⟨a, b, hab⟩
    refine ⟨⟨a⟩, ⟨b⟩, ?_⟩
    apply String.ext
    simp only [String.data_append]
    exact hab.symm
  · rintro ⟨pre, post, hs⟩
    refine ⟨pre.data, post.data, ?_⟩
    rw [hs]
    simp only [String.data_append]

/-- The public loop returns nothing exactly when no location passes the public filter. -/
theorem findPublicLocation_eq_none (name : String) (locs : List Location) :
    findPublicLocation name locs = none ↔ ∀ l ∈ locs, ¬ isPublicMatch name l := by
  induction locs with
  | nil => simp [findPublicLocation]
  | cons x rest ih =>
    simp only [findPublicLocation, List.mem_cons, forall_eq_or_imp]
    by_cases hx : x.Name = name ∧ x.Type_ = "PUBLIC" ∧ x.CloudPlatform = "AMAZON_EC2" ∧
        x.Status = "ENABLED"
    · rw [if_pos hx]
      simp only [reduceCtorEq, false_iff, not_and]
      intro hnot
      exact absurd hx hnot
    · rw [if_neg hx, ih]
      exact ⟨fun hr => ⟨hx, hr⟩, fun hr => hr.2⟩

/-- The public loop returns the entity id of the first location that passes the public
filter. -/
theorem findPublicLocation_first (name : String) (pre post : List Location) (l : Location)
    (hpre : ∀ x ∈ pre, ¬ isPublicMatch name x) (hl : isPublicMatch name l) :
    findPublicLocation name (pre ++ l :: post) = some l.EntityId := by
  induction pre with
  | nil =>
    have hl2 : l.Name = name ∧ l.Type_ = "PUBLIC" ∧ l.CloudPlatform = "AMAZON_EC2" ∧
        l.Status = "ENABLED" := hl
    simp only [List.nil_append, findPublicLocation]
    rw [if_pos hl2]
  | cons x rest ih =>
    have hx : ¬ (x.Name = name ∧ x.Type_ = "PUBLIC" ∧ x.CloudPlatform = "AMAZON_EC2" ∧
        x.Status = "ENABLED") := hpre x (List.mem_cons_self _ _)
    simp only [List.cons_append, findPublicLocation]
    rw [if_neg hx]
    exact ih (fun y hy => hpre y (List.mem_cons_of_mem _ hy))

/-- The private loop returns nothing exactly when no location passes the private filter. -/
theorem findPrivateLocation_eq_none (name : String) (locs : List Location) :
    findPrivateLocation name locs = none ↔ ∀ l ∈ locs, ¬ isPrivateMatch name l := by
  induction locs with
  | nil => simp [findPrivateLocation]
  | cons x rest ih =>
    simp only [findPrivateLocation, List.mem_cons, forall_eq_or_imp]
    by_cases hx : stringsContains x.Name name = true ∧ x.Type_ = "PRIVATE" ∧
        x.Status = "ENABLED"
    · rw [if_pos hx]
      simp only [reduceCtorEq, false_iff, not_and]
      intro hnot
      exact absurd ⟨(stringsContains_iff _ _).mp hx.1, hx.2⟩ hnot
    · rw [if_neg hx, ih]
      constructor
      · intro hr
        refine ⟨?_, hr⟩
        intro hm
        exact hx ⟨(stringsContains_iff _ _).mpr hm.1, hm.2⟩
      · intro hr
        exact hr.2

/-- The private loop returns the entity id of the first location that passes the private
filter. -/
theorem findPrivateLocation_first (name : String) (pre post : List Location) (l : Location)
    (hpre : ∀ x ∈ pre, ¬ isPrivateMatch name x) (hl : isPrivateMatch name l) :
    findPrivateLocation name (pre ++ l :: post) = some l.EntityId := by
  induction pre with
  | nil =>
    have hl2 : stringsContains l.Name name = true ∧ l.Type_ = "PRIVATE" ∧
        l.Status = "ENABLED" := ⟨(stringsContains_iff _ _).mpr hl.1, hl.2⟩
    simp only [List.nil_append, findPrivateLocation]
    rw [if_pos hl2]
  | cons x rest ih =>
    have hx : ¬ (stringsContains x.Name name = true ∧ x.Type_ = "PRIVATE" ∧
        x.Status = "ENABLED") := by
      intro hc
      exact hpre x (List.mem_cons_self _ _) ⟨(stringsContains_iff _ _).mp hc.1, hc.2⟩
    simp only [List.cons_append, findPrivateLocation]
    rw [if_neg hx]
    exact ih (fun y hy => hpre y (List.mem_cons_of_mem _ hy))

/-- With access type `PublicAndPrivate` and a location list answered with status 200,
`GetLocationEntityIdFromDynatrace` returns what the public loop finds. -/
theorem GetLocationEntityIdFromDynatrace_public {σ : Type} (h : HttpClient σ)
    (c : DynatraceApiClient) (name : String) (s s1 : σ) (resp : Response)
    (locs : DynatraceLocation)
    (hreq : MakeRequest h c Method.GET "/synthetic/locations" "" s = (s1, Except.ok resp))
    (hstatus : resp.StatusCode = 200)
    (hbody : resp.Body.decodeLocations = Except.ok locs) :
    GetLocationEntityIdFromDynatrace h c name hypershiftv1beta1.PublicAndPrivate s =
      match findPublicLocation name locs.Locations with
      | some entityId => (s1, entityId, none)
      | none => (s1, "", some (locationNotFound name hypershiftv1beta1.PublicAndPrivate)) := by
  have hne : ¬ (resp.StatusCode ≠ 200) := fun hn => hn hstatus
  have hdiff : ¬ (hypershiftv1beta1.PublicAndPrivate = hypershiftv1beta1.Private) := by decide
  simp only [GetLocationEntityIdFromDynatrace, hreq, if_neg hne, hbody, if_true, if_neg hdiff]

/-- With access type `Private` and a location list answered with status 200,
`GetLocationEntityIdFromDynatrace` returns what the private loop finds. -/
theorem GetLocationEntityIdFromDynatrace_private {σ : Type} (h : HttpClient σ)
    (c : DynatraceApiClient) (name : String) (s s1 : σ) (resp : Response)
    (locs : DynatraceLocation)
    (hreq : MakeRequest h c Method.GET "/synthetic/locations" "" s = (s1, Except.ok resp))
    (hstatus : resp.StatusCode = 200)
    (hbody : resp.Body.decodeLocations = Except.ok locs) :
    GetLocationEntityIdFromDynatrace h c name hypershiftv1beta1.Private s =
      match findPrivateLocation name locs.Locations with
      | some entityId => (s1, entityId, none)
      | none => (s1, "", some (locationNotFound name hypershiftv1beta1.Private)) := by
  have hne : ¬ (resp.StatusCode ≠ 200) := fun hn => hn hstatus
  have hdiff : ¬ (hypershiftv1beta1.Private = hypershiftv1beta1.PublicAndPrivate) := by decide
  simp only [GetLocationEntityIdFromDynatrace, hreq, if_neg hne, hbody, if_true, if_neg hdiff]

/-- C9: when the location list comes back with status 200, `GetLocationEntityIdFromDynatrace`
succeeds exactly when some listed location passes the filter of the access type
(`PublicAndPrivate`: name equal, PUBLIC, AMAZON_EC2, ENABLED; `Private`: name containing the
given one, PRIVATE, ENABLED); it then returns the entity id of the first such location in
list order; when none passes it returns the empty id and the error
`location '<name>' not found for location type '<access type>'`. -/
theorem GetLocationEntityIdFromDynatrace_first_match {σ : Type} (h : HttpClient σ)
    (c : DynatraceApiClient) (name : String) (s s1 : σ) (resp : Response)
    (locs : DynatraceLocation)
    (hreq : MakeRequest h c Method.GET "/synthetic/locations" "" s = (s1, Except.ok resp))
    (hstatus : resp.StatusCode = 200)
    (hbody : resp.Body.decodeLocations = Except.ok locs) :
    (((GetLocationEntityIdFromDynatrace h c name hypershiftv1beta1.PublicAndPrivate s).2.2 = none ↔
        ∃ l ∈ locs.Locations, isPublicMatch name l) ∧
      (∀ (pre post : List Location) (l : Location), locs.Locations = pre ++ l :: post →
        (∀ x ∈ pre, ¬ isPublicMatch name x) → isPublicMatch name l →
        GetLocationEntityIdFromDynatrace h c name hypershiftv1beta1.PublicAndPrivate s =
          (s1, l.EntityId, none)) ∧
      ((∀ l ∈ locs.Locations, ¬ isPublicMatch name l) →
        GetLocationEntityIdFromDynatrace h c name hypershiftv1beta1.PublicAndPrivate s =
          (s1, "", some ⟨"location '" ++ name ++ "' not found for location type '" ++
            "PublicAndPrivate" ++ "'"⟩))) ∧
    (((GetLocationEntityIdFromDynatrace h c name hypershiftv1beta1.Private s).2.2 = none ↔
        ∃ l ∈ locs.Locations, isPrivateMatch name l) ∧
      (∀ (pre post : List Location) (l : Location), locs.Locations = pre ++ l :: post →
        (∀ x ∈ pre, ¬ isPrivateMatch name x) → isPrivateMatch name l →
        GetLocationEntityIdFromDynatrace h c name hypershiftv1beta1.Private s =
          (s1, l.EntityId, none)) ∧
      ((∀ l ∈ locs.Locations, ¬ isPrivateMatch name l) →
        GetLocationEntityIdFromDynatrace h c name hypershiftv1beta1.Private s =
          (s1, "", some ⟨"location '" ++ name ++ "' not found for location type '" ++
            "Private" ++ "'"⟩))) := by
  have hpub := GetLocationEntityIdFromDynatrace_public h c name s s1 resp locs hreq hstatus hbody
  have hpriv := GetLocationEntityIdFromDynatrace_private h c name s s1 resp locs hreq hstatus
    hbody
  refine ⟨⟨?_, ?_, ?_⟩, ⟨?_, ?_, ?_⟩⟩
  · rw [hpub]
    cases hfind : findPublicLocation name locs.Locations with
    | none =>
      have hno := (findPublicLocation_eq_none name locs.Locations).mp hfind
      simp only [reduceCtorEq, false_iff, not_exists, not_and]
      exact hno
    | some e =>
      have hyes : ¬ ∀ l ∈ locs.Locations, ¬ isPublicMatch name l := by
        intro hall
        rw [(findPublicLocation_eq_none name locs.Locations).mpr hall] at hfind
        exact absurd hfind (by simp)
      simp only [true_iff]
      by_contra hcon
      exact hyes (fun l hl hm => hcon ⟨l, hl, hm⟩)
  · intro pre post l hsplit hpre hl
    rw [hpub, hsplit, findPublicLocation_first name pre post l hpre hl]
  · intro hall
    rw [hpub, (findPublicLocation_eq_none name locs.Locations).mpr hall]
    rfl
  · rw [hpriv]
    cases hfind : findPrivateLocation name locs.Locations with
    | none =>
      have hno := (findPrivateLocation_eq_none name locs.Locations).mp hfind
      simp only [reduceCtorEq, false_iff, not_exists, not_and]
      exact hno
    | some e =>
      have hyes : ¬ ∀ l ∈ locs.Locations, ¬ isPrivateMatch name l := by
        intro hall
        rw [(findPrivateLocation_eq_none name locs.Locations).mpr hall] at hfind
        exact absurd hfind (by simp)
      simp only [true_iff]
      by_contra hcon
      exact hyes (fun l hl hm => hcon ⟨l, hl, hm⟩)
  · intro pre post l hsplit hpre hl
    rw [hpriv, hsplit, findPrivateLocation_first name pre post l hpre hl]
  · intro hall
    rw [hpriv, (findPrivateLocation_eq_none name locs.Locations).mpr hall]
    rfl

/-- Witness for C9: the fixture of one public and one private location. `N. Virginia`
resolves to `loc-1` as `PublicAndPrivate`, `backplane` resolves to `loc-2` as `Private`,
and `nowhere` is not found. -/
theorem GetLocationEntityIdFromDynatrace_first_match_witness :
    GetLocationEntityIdFromDynatrace
      (locationService [⟨"N. Virginia", "PUBLIC", "AMAZON_EC2", "loc-1", "ENABLED"⟩,
        ⟨"backplane-abc", "PRIVATE", "", "loc-2", "ENABLED"⟩])
      ⟨"https://dt", "tok"⟩ "N. Virginia" hypershiftv1beta1.PublicAndPrivate () =
      ((), "loc-1", none) ∧
    GetLocationEntityIdFromDynatrace
      (locationService [⟨"N. Virginia", "PUBLIC", "AMAZON_EC2", "loc-1", "ENABLED"⟩,
        ⟨"backplane-abc", "PRIVATE", "", "loc-2", "ENABLED"⟩])
      ⟨"https://dt", "tok"⟩ "backplane" hypershiftv1beta1.Private () =
      ((), "loc-2", none) ∧
    GetLocationEntityIdFromDynatrace
      (locationService [⟨"N. Virginia", "PUBLIC", "AMAZON_EC2", "loc-1", "ENABLED"⟩,
        ⟨"backplane-abc", "PRIVATE", "", "loc-2", "ENABLED"⟩])
      ⟨"https://dt", "tok"⟩ "nowhere" hypershiftv1beta1.PublicAndPrivate () =
      ((), "", some ⟨"location 'nowhere' not found for location type 'PublicAndPrivate'"⟩) :=
  ⟨(GetLocationEntityIdFromDynatrace_first_match
      (locationService [⟨"N. Virginia", "PUBLIC", "AMAZON_EC2", "loc-1", "ENABLED"⟩,
        ⟨"backplane-abc", "PRIVATE", "", "loc-2", "ENABLED"⟩])
      ⟨"https://dt", "tok"⟩ "N. Virginia" () () _ _ rfl rfl rfl).1.2.1
      [] [⟨"backplane-abc", "PRIVATE", "", "loc-2", "ENABLED"⟩]
      ⟨"N. Virginia", "PUBLIC", "AMAZON_EC2", "loc-1", "ENABLED"⟩ rfl
      (fun _ hx => absurd hx (List.not_mem_nil _)) ⟨rfl, rfl, rfl, rfl⟩,
   (GetLocationEntityIdFromDynatrace_first_match
      (locationService [⟨"N. Virginia", "PUBLIC", "AMAZON_EC2", "loc-1", "ENABLED"⟩,
        ⟨"backplane-abc", "PRIVATE", "", "loc-2", "ENABLED"⟩])
      ⟨"https://dt", "tok"⟩ "backplane" () () _ _ rfl rfl rfl).2.2.1
      [⟨"N. Virginia", "PUBLIC", "AMAZON_EC2", "loc-1", "ENABLED"⟩] []
      ⟨"backplane-abc", "PRIVATE", "", "loc-2", "ENABLED"⟩ rfl
      (fun x hx hm => by
        rw [List.mem_singleton] at hx
        subst hx
        exact absurd hm.2.1 (by decide))
      ⟨⟨"", "-abc", by decide⟩, rfl, rfl⟩,
   (GetLocationEntityIdFromDynatrace_first_match
      (locationService [⟨"N. Virginia", "PUBLIC", "AMAZON_EC2", "loc-1", "ENABLED"⟩,
        ⟨"backplane-abc", "PRIVATE", "", "loc-2", "ENABLED"⟩])
      ⟨"https://dt", "tok"⟩ "nowhere" () () _ _ rfl rfl rfl).1.2.2
      (fun x hx hm => by
        rw [List.mem_cons, List.mem_singleton] at hx
        rcases hx with hx | hx
        · subst hx
          exact absurd hm.1 (by decide)
        · subst hx
          exact absurd hm.1 (by decide))⟩

end dynatrace

namespace reconcileCommon

/-- C10: `ParseMonitorSLOSpecs` returns `ErrNoHost` whenever the route URL is empty,
whatever the SLO spec; otherwise `("", nil)` for the zero spec; otherwise `ErrInvalidSLO`
with an empty string when `IsValid` reports invalid; otherwise the parsed form `IsValid`
produced, with no error. -/
theorem ParseMonitorSLOSpecs_cases {SloSpec : Type} [DecidableEq SloSpec]
    (zeroSloSpec : SloSpec) (IsValid : SloSpec → Bool × String) (routeURL : String)
    (sloSpec : SloSpec) :
    (routeURL = "" →
      ParseMonitorSLOSpecs zeroSloSpec IsValid routeURL sloSpec =
        ("", some customerrors.Sentinel.ErrNoHost)) ∧
    (routeURL ≠ "" → sloSpec = zeroSloSpec →
      ParseMonitorSLOSpecs zeroSloSpec IsValid routeURL sloSpec = ("", none)) ∧
    (routeURL ≠ "" → sloSpec ≠ zeroSloSpec → (IsValid sloSpec).1 = false →
      ParseMonitorSLOSpecs zeroSloSpec IsValid routeURL sloSpec =
        ("", some customerrors.Sentinel.ErrInvalidSLO)) ∧
    (routeURL ≠ "" → sloSpec ≠ zeroSloSpec → (IsValid sloSpec).1 = true →
      ParseMonitorSLOSpecs zeroSloSpec IsValid routeURL sloSpec =
        ((IsValid sloSpec).2, none)) := by
  refine ⟨?_, ?_, ?_, ?_⟩
  · intro hurl
    simp only [ParseMonitorSLOSpecs, if_pos hurl]
  · intro hurl hzero
    simp only [ParseMonitorSLOSpecs, if_neg hurl, if_pos hzero]
  · intro hurl hzero hvalid
    simp only [ParseMonitorSLOSpecs, if_neg hurl, if_neg hzero]
    rcases hiv : IsValid sloSpec with ⟨isValid, parsedSlo⟩
    rw [hiv] at hvalid
    simp only at hvalid
    subst hvalid
    rfl
  · intro hurl hzero hvalid
    simp only [ParseMonitorSLOSpecs, if_neg hurl, if_neg hzero]
    rcases hiv : IsValid sloSpec with ⟨isValid, parsedSlo⟩
    rw [hiv] at hvalid
    simp only at hvalid
    subst hvalid
    rfl

/-- Witness for C10, with an SLO spec that is its target text, the empty text as zero
value, and a validation that accepts the texts of at most five characters: an empty route
URL with the zero spec, the zero spec, an invalid spec and a valid one. -/
theorem ParseMonitorSLOSpecs_cases_witness :
    ParseMonitorSLOSpecs "" (fun x : String => (decide (x.length ≤ 5), x)) "" "" =
      ("", some customerrors.Sentinel.ErrNoHost) ∧
    ParseMonitorSLOSpecs "" (fun x : String => (decide (x.length ≤ 5), x)) "http://x" "" =
      ("", none) ∧
    ParseMonitorSLOSpecs "" (fun x : String => (decide (x.length ≤ 5), x)) "http://x"
      "ninety-nine" = ("", some customerrors.Sentinel.ErrInvalidSLO) ∧
    ParseMonitorSLOSpecs "" (fun x : String => (decide (x.length ≤ 5), x)) "http://x"
      "99.5" = ("99.5", none) :=
  ⟨(ParseMonitorSLOSpecs_cases "" (fun x : String => (decide (x.length ≤ 5), x)) "" "").1 rfl,
   (ParseMonitorSLOSpecs_cases "" (fun x : String => (decide (x.length ≤ 5), x))
      "http://x" "").2.1 (by decide) rfl,
   (ParseMonitorSLOSpecs_cases "" (fun x : String => (decide (x.length ≤ 5), x))
      "http://x" "ninety-nine").2.2.1 (by decide) (by decide) (by decide),
   (ParseMonitorSLOSpecs_cases "" (fun x : String => (decide (x.length ≤ 5), x))
      "http://x" "99.5").2.2.2 (by decide) (by decide) (by decide)⟩

end reconcileCommon

namespace reconcileCommon

/-- C11: with the finalizer helpers modelled as set membership, insert and erase,
`SetFinalizer` returns true exactly when the key was absent and leaves the key present, so
a second `SetFinalizer` with the same key returns false and changes nothing;
`DeleteFinalizer` returns true exactly when the key was present and leaves the key absent,
and on an absent key it returns false and changes nothing. -/
theorem SetFinalizer_DeleteFinalizer_idempotent (o : Finset String) (k : String) :
    ((SetFinalizer o k).2 = true ↔ k ∉ o) ∧
    k ∈ (SetFinalizer o k).1 ∧
    (k ∈ o → SetFinalizer o k = (o, false)) ∧
    SetFinalizer (SetFinalizer o k).1 k = ((SetFinalizer o k).1, false) ∧
    ((DeleteFinalizer o k).2 = true ↔ k ∈ o) ∧
    k ∉ (DeleteFinalizer o k).1 ∧
    (k ∉ o → DeleteFinalizer o k = (o, false)) ∧
    DeleteFinalizer (DeleteFinalizer o k).1 k = ((DeleteFinalizer o k).1, false) := by
  by_cases hk : k ∈ o
  · simp [SetFinalizer, DeleteFinalizer, finalizer.HasFinalizer, finalizer.Add,
      finalizer.Remove, hk]
  · simp [SetFinalizer, DeleteFinalizer, finalizer.HasFinalizer, finalizer.Add,
      finalizer.Remove, hk]

/-- Witness for C11: adding the key `b` to the set of `a`, and removing it again. -/
theorem SetFinalizer_DeleteFinalizer_idempotent_witness :
    SetFinalizer {"a", "b"} "b" = ({"a", "b"}, false) ∧
    DeleteFinalizer {"a"} "b" = ({"a"}, false) :=
  ⟨(SetFinalizer_DeleteFinalizer_idempotent {"a", "b"} "b").2.2.1 (by decide),
   (SetFinalizer_DeleteFinalizer_idempotent {"a"} "b").2.2.2.2.2.2.1 (by decide)⟩

/-- C12 at its failing input: with an empty status and an error whose text is empty,
`SetErrorStatus` returns true although the status after the call is the status before
it. -/
theorem SetErrorStatus_true_without_change :
    SetErrorStatus "" (some ⟨""⟩) = ("", true) := by
  decide

/-- C15: `GetHCP` returns the error of the list call unchanged when that call fails; when
it succeeds, `GetHCP` returns no error exactly when one object is listed, and then returns
that object; for every other count it returns an error whose text names the namespace and
the count. -/
theorem GetHCP_exactly_one {HostedControlPlane : Type} (zeroHCP : HostedControlPlane)
    (list : String → Except GoError (List HostedControlPlane)) (ns : String) :
    (∀ err : GoError, list ns = Except.error err →
      GetHCP zeroHCP list ns = (zeroHCP, some err)) ∧
    (∀ items : List HostedControlPlane, list ns = Except.ok items →
      ((GetHCP zeroHCP list ns).2 = none ↔ items.length = 1) ∧
      (∀ x : HostedControlPlane, items = [x] → GetHCP zeroHCP list ns = (x, none)) ∧
      (items.length ≠ 1 →
        GetHCP zeroHCP list ns =
          (zeroHCP, some ⟨"invalid number of HostedControlPlanes detected in namespace '" ++
            ns ++ "': expected 1, got " ++ toString items.length⟩))) := by
  constructor
  · intro err herr
    simp only [GetHCP, herr]
  · intro items hok
    refine ⟨?_, ?_, ?_⟩
    · by_cases hlen : items.length = 1
      · have hne : ¬ (items.length ≠ 1) := fun hn => hn hlen
        simp only [GetHCP, hok, if_neg hne, hlen, iff_true]
        cases items with
        | nil => simp at hlen
        | cons first rest => rfl
      · simp only [GetHCP, hok, if_pos hlen, hlen, iff_false]
        simp
    · intro x hx
      subst hx
      simp [GetHCP, hok]
    · intro hlen
      simp only [GetHCP, hok, if_pos hlen]

/-- Witness for C15, with control planes named by a number: one, none and two objects in
the namespace, and a failing list call. -/
theorem GetHCP_exactly_one_witness :
    GetHCP 0 (fun _ => Except.ok [7]) "ns" = (7, none) ∧
    GetHCP 0 (fun _ => Except.ok [7, 8]) "ns" =
      (0, some ⟨"invalid number of HostedControlPlanes detected in namespace 'ns': expected 1, got 2"⟩) ∧
    GetHCP 0 (fun _ => (Except.error ⟨"timeout"⟩ : Except GoError (List Nat))) "ns" =
      (0, some ⟨"timeout"⟩) :=
  ⟨((GetHCP_exactly_one 0 (fun _ => Except.ok [7]) "ns").2 [7] rfl).2.1 7 rfl,
   ((GetHCP_exactly_one 0 (fun _ => Except.ok [7, 8]) "ns").2 [7, 8] rfl).2.2 (by decide),
   (GetHCP_exactly_one 0 (fun _ => (Except.error ⟨"timeout"⟩ : Except GoError (List Nat)))
      "ns").1 ⟨"timeout"⟩ rfl⟩

/-- Counterexample for C19: with the zero reference and the zero target
`SetResourceReference` returns `changed = true` although the reference after the call is
the reference before it. -/
theorem SetResourceReference_zero_zero_counterexample :
    ¬ ((SetResourceReference v1alpha1.NamespacedName.zero ⟨"", ""⟩).2.1 = true →
      (SetResourceReference v1alpha1.NamespacedName.zero ⟨"", ""⟩).1 ≠
        v1alpha1.NamespacedName.zero) := by
  decide

/-- C19 as amended: when the current reference and the target are not both the zero value,
`SetResourceReference` returns `changed = true` only when the reference after the call
differs from the reference before it; and for a non-zero target a second call in
succession returns `changed = false`. -/
theorem SetResourceReference_changed_only_on_change (cur : v1alpha1.NamespacedName)
    (t : types.NamespacedName) :
    (¬ (cur = v1alpha1.NamespacedName.zero ∧ t = ⟨"", ""⟩) →
      (SetResourceReference cur t).2.1 = true → (SetResourceReference cur t).1 ≠ cur) ∧
    (t ≠ ⟨"", ""⟩ →
      (SetResourceReference (SetResourceReference cur t).1 t).2.1 = false) := by
  obtain ⟨tn, tns⟩ := t
  have hz : ((⟨tn, tns⟩ : v1alpha1.NamespacedName) = v1alpha1.NamespacedName.zero) ↔
      ((⟨tn, tns⟩ : types.NamespacedName) = ⟨"", ""⟩) := by
    simp [v1alpha1.NamespacedName.zero]
  constructor
  · intro hboth hchanged
    by_cases hc : cur = v1alpha1.NamespacedName.zero
    · have ht : ¬ ((⟨tn, tns⟩ : v1alpha1.NamespacedName) = v1alpha1.NamespacedName.zero) :=
        fun h => hboth ⟨hc, hz.mp h⟩
      simp only [SetResourceReference, if_pos (Or.inl hc)]
      rw [hc]
      exact ht
    · by_cases ht : (⟨tn, tns⟩ : v1alpha1.NamespacedName) = v1alpha1.NamespacedName.zero
      · simp only [SetResourceReference, if_pos (Or.inr ht)]
        rw [ht]
        exact fun h => hc h.symm
      · have h2 : ¬ (cur = v1alpha1.NamespacedName.zero ∨
            (⟨tn, tns⟩ : v1alpha1.NamespacedName) = v1alpha1.NamespacedName.zero) := by
          rintro (h | h)
          · exact hc h
          · exact ht h
        simp only [SetResourceReference, if_neg h2] at hchanged
        split at hchanged <;> simp at hchanged
  · intro ht
    have htz : ¬ ((⟨tn, tns⟩ : v1alpha1.NamespacedName) = v1alpha1.NamespacedName.zero) :=
      fun h => ht (hz.mp h)
    by_cases hc : cur = v1alpha1.NamespacedName.zero
    · have h2 : ¬ ((⟨tn, tns⟩ : v1alpha1.NamespacedName) = v1alpha1.NamespacedName.zero ∨
          (⟨tn, tns⟩ : v1alpha1.NamespacedName) = v1alpha1.NamespacedName.zero) := by
        rintro (h | h) <;> exact htz h
      simp only [SetResourceReference, if_pos (Or.inl hc), if_neg h2]
      simp
    · have h2 : ¬ (cur = v1alpha1.NamespacedName.zero ∨
          (⟨tn, tns⟩ : v1alpha1.NamespacedName) = v1alpha1.NamespacedName.zero) := by
        rintro (h | h)
        · exact hc h
        · exact htz h
      by_cases hne : cur ≠ (⟨tn, tns⟩ : v1alpha1.NamespacedName)
      · simp only [SetResourceReference, if_neg h2, if_pos hne]
      · simp only [SetResourceReference, if_neg h2, if_neg hne]

/-- Witness for C19 as amended: binding `a/ns` from the zero value changes the reference,
and a second call with `a/ns` reports no change. -/
theorem SetResourceReference_changed_only_on_change_witness :
    (SetResourceReference v1alpha1.NamespacedName.zero ⟨"a", "ns"⟩).1 ≠
      v1alpha1.NamespacedName.zero ∧
    (SetResourceReference (SetResourceReference v1alpha1.NamespacedName.zero ⟨"a", "ns"⟩).1
      ⟨"a", "ns"⟩).2.1 = false :=
  ⟨(SetResourceReference_changed_only_on_change v1alpha1.NamespacedName.zero ⟨"a", "ns"⟩).1
      (by decide) (by decide),
   (SetResourceReference_changed_only_on_change v1alpha1.NamespacedName.zero ⟨"a", "ns"⟩).2
      (by decide)⟩

end reconcileCommon

namespace dynatrace

/-- Appending the same suffix is injective on strings. -/
theorem string_append_left_inj (a b c : String) : a ++ c = b ++ c ↔ a = b := by
  constructor
  · intro h
    have hd := congrArg String.data h
    simp only [String.data_append] at hd
    exact String.ext (List.append_cancel_right hd)
  · intro h
    rw [h]

/-- A string that ends in a non-empty string is not empty. -/
theorem string_append_ne_empty (a b : String) (hb : b ≠ "") : a ++ b ≠ "" := by
  intro h
  apply hb
  have hd := congrArg String.data h
  simp only [String.data_append] at hd
  apply String.ext
  exact (List.append_eq_nil.mp hd).2

/-- C13: when the POST of `CreateDynatraceHttpMonitor` comes back with a status outside
200..299, the call returns the empty id and the error
`failed to create HTTP monitor. Status code: <status>`; when it comes back with status 200
and a body that decodes, the call returns the entity id of the body and no error. -/
theorem CreateDynatraceHttpMonitor_by_status {σ : Type} (h : HttpClient σ)
    (c : DynatraceApiClient)
    (monitorName apiUrl clusterId locationId clusterRegion : String) (s s1 : σ)
    (resp : Response)
    (hpost : MakeRequest h c Method.POST "/synthetic/monitors"
      (Execute publicMonitorTemplate
        ⟨monitorName, apiUrl, locationId, clusterId, clusterRegion⟩) s =
      (s1, Except.ok resp)) :
    ((resp.StatusCode < 200 ∨ 299 < resp.StatusCode) →
      CreateDynatraceHttpMonitor h c monitorName apiUrl clusterId locationId clusterRegion s =
        (s1, "", some ⟨"failed to create HTTP monitor. Status code: " ++
          toString resp.StatusCode⟩)) ∧
    (resp.StatusCode = 200 → ∀ created : DynatraceCreatedMonitor,
      resp.Body.decodeCreatedMonitor = Except.ok created →
      CreateDynatraceHttpMonitor h c monitorName apiUrl clusterId locationId clusterRegion s =
        (s1, created.EntityId, none)) := by
  constructor
  · intro hout
    have hne : resp.StatusCode ≠ 200 := by omega
    simp only [CreateDynatraceHttpMonitor, hpost, if_pos hne]
  · intro h200 created hbody
    have hne : ¬ (resp.StatusCode ≠ 200) := fun hn => hn h200
    simp only [CreateDynatraceHttpMonitor, hpost, if_neg hne, hbody]

/-- Witness for C13: a remote end that answers 503, and one that answers 200 with the
entity id `HTTP_CHECK-1`. -/
theorem CreateDynatraceHttpMonitor_by_status_witness :
    CreateDynatraceHttpMonitor (fixedService 503 "") ⟨"https://dt", "tok"⟩
      "m" "https://api.example.com" "cid" "loc" "us-east-1" () =
      ((), "", some ⟨"failed to create HTTP monitor. Status code: 503"⟩) ∧
    CreateDynatraceHttpMonitor (fixedService 200 "HTTP_CHECK-1") ⟨"https://dt", "tok"⟩
      "m" "https://api.example.com" "cid" "loc" "us-east-1" () =
      ((), "HTTP_CHECK-1", none) :=
  ⟨(CreateDynatraceHttpMonitor_by_status (fixedService 503 "") ⟨"https://dt", "tok"⟩
      "m" "https://api.example.com" "cid" "loc" "us-east-1" () () _ rfl).1
      (Or.inr (by decide)),
   (CreateDynatraceHttpMonitor_by_status (fixedService 200 "HTTP_CHECK-1")
      ⟨"https://dt", "tok"⟩ "m" "https://api.example.com" "cid" "loc" "us-east-1" () () _
      rfl).2 rfl ⟨"HTTP_CHECK-1"⟩ rfl⟩

/-- For the target URL `https://a/?x=1&y=2` the rendered text is the monitor definition
whose request url reads `https://a/?x=1&amp;y=2`, not the definition that carries the
given URL. -/
theorem Execute_ampersand :
    Execute publicMonitorTemplate ⟨"m", "https://a/?x=1&y=2", "loc", "cid", "us-east-1"⟩ =
      substitute publicMonitorTemplate
        ⟨"m", "https://a/?x=1&amp;y=2", "loc", "cid", "us-east-1"⟩ ∧
    Execute publicMonitorTemplate ⟨"m", "https://a/?x=1&y=2", "loc", "cid", "us-east-1"⟩ ≠
      substitute publicMonitorTemplate
        ⟨"m", "https://a/?x=1&y=2", "loc", "cid", "us-east-1"⟩ := by
  have h1 : htmlEscape "m" = "m" := by decide
  have h2 : htmlEscape "https://a/?x=1&y=2" = "https://a/?x=1&amp;y=2" := by decide
  have h3 : htmlEscape "loc" = "loc" := by decide
  have h4 : htmlEscape "cid" = "cid" := by decide
  have h5 : htmlEscape "us-east-1" = "us-east-1" := by decide
  constructor
  · simp only [Execute, substitute, publicMonitorTemplate, List.foldl, h1, h2, h3, h4, h5]
  · simp only [Execute, substitute, publicMonitorTemplate, List.foldl, h1, h2, h3, h4, h5,
      ne_eq, string_append_left_inj, string_append_right_inj]
    decide

/-- The rendered monitor definition is never the empty string. -/
theorem Execute_ne_empty (cfg : DynatraceMonitorConfig) :
    Execute publicMonitorTemplate cfg ≠ "" := by
  simp only [Execute, publicMonitorTemplate, List.foldl]
  exact string_append_ne_empty _ _ (by decide)

/-- C14 at its failing input: for the target URL `https://a/?x=1&y=2` the one request
`CreateDynatraceHttpMonitor` sends has as body the monitor definition whose request url
reads `https://a/?x=1&amp;y=2`, which is not the definition that carries the given URL. -/
theorem CreateDynatraceHttpMonitor_submits_escaped_url :
    ((CreateDynatraceHttpMonitor (recording (fixedService 200 "HTTP_CHECK-1"))
      ⟨"https://dt", "tok"⟩ "m" "https://a/?x=1&y=2" "cid" "loc" "us-east-1" ((), [])).1.2).map
        (fun e => e.request.Body) =
      [some (substitute publicMonitorTemplate
        ⟨"m", "https://a/?x=1&amp;y=2", "loc", "cid", "us-east-1"⟩)] ∧
    substitute publicMonitorTemplate
        ⟨"m", "https://a/?x=1&amp;y=2", "loc", "cid", "us-east-1"⟩ ≠
      substitute publicMonitorTemplate
        ⟨"m", "https://a/?x=1&y=2", "loc", "cid", "us-east-1"⟩ := by
  have hex := Execute_ampersand
  constructor
  · simp only [CreateDynatraceHttpMonitor, MakeRequest, recording_Do, fixedService,
      if_pos (Execute_ne_empty _)]
    simp [hex.1]
  · rw [← hex.1]
    exact hex.2

/-- C16 at its failing input: with two monitors of cluster `c1` on the remote service,
`ExistsHttpMonitorInDynatrace` returns `(true, nil)` and leaves no monitor; the first
listed one, `m1`, is deleted too. -/
theorem ExistsHttpMonitorInDynatrace_deletes_first_too :
    ExistsHttpMonitorInDynatrace (remoteService "https://dt") ⟨"https://dt", "tok"⟩ "c1"
      [⟨"m1", "c1"⟩, ⟨"m2", "c1"⟩] = ([], true, none) := by
  decide

/-- C17 at its failing input: with three monitors of cluster `c1` on the remote service,
`ExistsHttpMonitorInDynatrace` returns `(true, nil)` while no monitor tagged `c1` is left
when it returns. -/
theorem ExistsHttpMonitorInDynatrace_true_with_none_left :
    (ExistsHttpMonitorInDynatrace (remoteService "https://dt") ⟨"https://dt", "tok"⟩ "c1"
      [⟨"a", "c1"⟩, ⟨"b", "c1"⟩, ⟨"c", "c1"⟩, ⟨"d", "c2"⟩]).2 = (true, none) ∧
    taggedWith "c1"
      (ExistsHttpMonitorInDynatrace (remoteService "https://dt") ⟨"https://dt", "tok"⟩ "c1"
        [⟨"a", "c1"⟩, ⟨"b", "c1"⟩, ⟨"c", "c1"⟩, ⟨"d", "c2"⟩]).1 = [] := by
  decide

/-- C18 at its failing input: the DELETE of monitor `m1` answers 403, and the error
`DeleteDynatraceHttpMonitor` returns reads `Status code: 200`, the status of the list
response. -/
theorem DeleteDynatraceHttpMonitor_reports_list_status :
    statusOf ((readOnlyService "https://dt").Do [⟨"m1", "c1"⟩]
      (deleteRequest ⟨"https://dt", "tok"⟩ "m1")).2 = some 403 ∧
    DeleteDynatraceHttpMonitor (readOnlyService "https://dt") ⟨"https://dt", "tok"⟩ "c1"
      [⟨"m1", "c1"⟩] =
      ([⟨"m1", "c1"⟩], some ⟨"failed to delete monitor. Status code: 200"⟩) := by
  decide

end dynatrace
